import Mathlib

/-!
Verification of the request-correlation and time-synchronization engine of the
CDP Logger JavaScript client (`src/client.js`).

The client is a single-threaded, event-driven class. We embed it shallowly:
the mutable fields of the `Client` instance become a `ClientState` structure,
JavaScript objects used as maps become association lists with JS semantics
(insert overwrites in place, otherwise appends; `delete` removes the key), and
each method becomes a pure function from a state (plus the external inputs the
method reads, such as `Date.now()`) to a new state together with the lists of
wire frames it sends and promises it settles.

Numeric values are modelled as rationals (`ℚ`); the claims under study concern
comparisons, selection and bookkeeping, not floating-point rounding.
-/

namespace CdpLogger

/-- JS association-object lookup: `obj[k]`, `none` when the key is absent. -/
def assocGet {κ β : Type} [DecidableEq κ] : List (κ × β) → κ → Option β
  | [], _ => none
  | (k, v) :: rest, key => if k = key then some v else assocGet rest key

/-- JS association-object insertion `obj[k] = v`: overwrite in place when the
key exists, append otherwise (JS objects keep the original key position). -/
def assocSet {κ β : Type} [DecidableEq κ] : List (κ × β) → κ → β → List (κ × β)
  | [], key, v => [(key, v)]
  | (k, w) :: rest, key, v =>
      if k = key then (key, v) :: rest else (k, w) :: assocSet rest key v

/-- JS `delete obj[k]`: removes the (unique) entry for the key. -/
def assocDelete {κ β : Type} [DecidableEq κ] : List (κ × β) → κ → List (κ × β)
  | [], _ => []
  | (k, v) :: rest, key =>
      if k = key then rest else (k, v) :: assocDelete rest key

/-- Helper for `jsSetDedup`: keep the elements not seen yet. -/
def jsSetDedupAux : List String → List String → List String
  | [], _ => []
  | x :: xs, seen =>
      if x ∈ seen then jsSetDedupAux xs seen else x :: jsSetDedupAux xs (x :: seen)

/-- JS `Array.from(new Set(xs))`: deduplicate keeping first occurrences. -/
def jsSetDedup (l : List String) : List String := jsSetDedupAux l []

/-- A JavaScript value, as far as the client inspects caller-supplied data. -/
inductive JsVal : Type
  | num (q : ℚ)
  | str (s : String)
  | boolean (b : Bool)
  | null
  | undefined
  | arr (xs : List JsVal)
  | obj (fields : List (String × JsVal))

/-- JS `typeof`. -/
def typeofJs : JsVal → String
  | .num _ => "number"
  | .str _ => "string"
  | .boolean _ => "boolean"
  | .null => "object"
  | .undefined => "undefined"
  | .arr _ => "object"
  | .obj _ => "object"

/-- JS `Array.isArray`. -/
def isArrayJs : JsVal → Bool
  | .arr _ => true
  | _ => false

def isNullJs : JsVal → Bool
  | .null => true
  | _ => false

/-- JS `String(v)`. Number formatting is approximated by the decimal rendering
of the rational; array and object renderings are approximated. The claims
never depend on these spellings. -/
def jsToString : JsVal → String
  | .num q => toString q
  | .str s => s
  | .boolean b => if b then "true" else "false"
  | .null => "null"
  | .undefined => "undefined"
  | .arr _ => ""
  | .obj _ => "[object Object]"

/-- Condition entries of `_buildEventQuery`: a value and a MatchType. -/
structure WireCondition : Type where
  value : JsVal
  type : JsVal

/-- The structured `EventQuery` built by `_buildEventQuery`: the optional
scalar fields are copied verbatim from the caller's object when present. -/
structure WireEventQuery : Type where
  timeRangeBegin : Option JsVal := none
  timeRangeEnd : Option JsVal := none
  codeMask : Option JsVal := none
  limit : Option JsVal := none
  offset : Option JsVal := none
  flags : Option JsVal := none
  senderConditions : Option (List WireCondition) := none
  dataConditions : Option (List (String × List WireCondition)) := none

/-- A queued request descriptor, as stored in `this.queuedRequests[requestId]`:
`"api_version"`, `"logged_nodes"`, `"log_limits"`,
`["node_values", names, startS, endS, noOfDataPoints, limit]`,
`{type: "events", query}` or `{type: "countEvents", query}`. -/
inductive QueuedRequest : Type
  | apiVersion
  | loggedNodes
  | logLimits
  | nodeValues (nodeNames : List String) (startS endS noOfDataPoints limit : ℚ)
  | events (query : WireEventQuery)
  | countEvents (query : WireEventQuery)

/-- CDPValueType constants used by `_valueFromVariant`. -/
inductive CDPValueType : Type
  | eDOUBLE | eFLOAT | eUINT64 | eINT64 | eUINT | eINT
  | eUSHORT | eSHORT | eUCHAR | eCHAR | eBOOL | eSTRING | eUNDEFINED
deriving DecidableEq

/-- A decoded protobuf variant: one optional field per value kind. -/
structure Variant : Type where
  dValue : JsVal := .undefined
  fValue : JsVal := .undefined
  ui64Value : JsVal := .undefined
  i64Value : JsVal := .undefined
  uiValue : JsVal := .undefined
  iValue : JsVal := .undefined
  usValue : JsVal := .undefined
  sValue : JsVal := .undefined
  ucValue : JsVal := .undefined
  cValue : JsVal := .undefined
  bValue : JsVal := .undefined
  strValue : JsVal := .undefined

/-- One entry of a tag map: `{value, source}` copied by `_convertTagMap`. -/
structure TagInfo : Type where
  value : JsVal
  source : JsVal

/-- Resolved tags for one sender / node: tag name to `{value, source}`. -/
def TagMap : Type := List (String × TagInfo)

/-- A raw wire tag map, possibly nested under a `tags` field
(`tagMapObj.tags || tagMapObj` in `_convertTagMap`). -/
inductive RawTagMap : Type
  | nested (tags : List (String × TagInfo))
  | flat (entries : List (String × TagInfo))

/-- Models `_convertTagMap`: copies `{value, source}` for each entry; a missing /
falsy argument gives an empty map. -/
def convertTagMap : Option RawTagMap → TagMap
  | none => []
  | some (.nested tags) => tags.map (fun p => (p.1, { value := p.2.value, source := p.2.source }))
  | some (.flat entries) => entries.map (fun p => (p.1, { value := p.2.value, source := p.2.source }))

/-- A decoded event as it appears in an events response, plus the fields the
client attaches while parsing (`codeDescription`, `tags`). -/
structure Event : Type where
  sender : String
  code : Nat
  tags : Option TagMap := none
  codeDescription : Option String := none

/-- The state held on a `Client` instance (constructor fields).
`storedPromises` keeps the keys of the id-to-pending-promise map; settlements
are reported in the result of each operation. `pendingSenderTags` maps a
sender to the list of waiter tokens pushed by `getSenderTags`. -/
structure ClientState : Type where
  reqId : Int
  autoReconnect : Bool
  enableTimeSync : Bool
  isOpen : Bool
  queuedRequests : List (Int × QueuedRequest)
  storedPromises : List Int
  nameToId : List (String × Int)
  idToName : List (Int × String)
  nameToType : List (String × CDPValueType)
  timeDiff : ℚ
  timeReceived : Option ℚ
  lastTimeRequest : ℚ
  haveSentQueuedReq : Bool
  roundTripTimes : List (ℚ × ℚ)
  senderTags : List (String × TagMap)
  pendingSenderTags : List (String × List Nat)

/-- The constructor's initial field values (`new Client(endpoint, autoReconnect)`).
`lastTimeRequest` is `Date.now()/1000` at construction. -/
def initialState (autoReconnect : Bool) (constructedAt : ℚ) : ClientState where
  reqId := -1
  autoReconnect := autoReconnect
  enableTimeSync := true
  isOpen := false
  queuedRequests := []
  storedPromises := []
  nameToId := []
  idToName := []
  nameToType := []
  timeDiff := 0
  timeReceived := none
  lastTimeRequest := constructedAt
  haveSentQueuedReq := false
  roundTripTimes := []
  senderTags := []
  pendingSenderTags := []

/-- An outgoing wire frame, one constructor per `_send*` routine. -/
inductive Frame : Type
  | timeRequest (requestId : Int)
  | signalInfoRequest (requestId : Int)
  | criterionLimitsRequest (requestId : Int)
  | signalDataRequest (requestId : Int) (signalId : List Int)
      (limit numOfDatapoints criterionMin criterionMax : ℚ)
  | versionRequest (requestId : Int)
  | eventsRequest (requestId : Int) (query : WireEventQuery)
  | countEventsRequest (requestId : Int) (query : WireEventQuery)
  | eventSenderTagsRequest (requestId : Int) (sender : String)

/-- Models `_getRequestId`: increments `this.reqId` and returns it. -/
def getRequestId (st : ClientState) : Int × ClientState :=
  (st.reqId + 1, { st with reqId := st.reqId + 1 })

/-- The state after one allocation. -/
def allocStep (st : ClientState) : ClientState := (getRequestId st).2

/-- The id returned by the `(n+1)`-th call to `_getRequestId` on a client. -/
def idAfter (st : ClientState) (n : Nat) : Int :=
  (getRequestId (allocStep^[n] st)).1

lemma allocStep_reqId (st : ClientState) : (allocStep st).reqId = st.reqId + 1 := rfl

lemma iterate_allocStep_reqId (st : ClientState) (n : Nat) :
    (allocStep^[n] st).reqId = st.reqId + n := by
  induction n generalizing st with
  | zero => simp
  | succ k ih =>
      rw [Function.iterate_succ_apply, ih, allocStep_reqId]
      push_cast
      ring

lemma idAfter_eq (st : ClientState) (n : Nat) : idAfter st n = st.reqId + n + 1 := by
  simp [idAfter, getRequestId, iterate_allocStep_reqId]

/-- The `{min, max, last}` record stored per signal by `_createValue`. -/
structure SigVal : Type where
  min : JsVal
  max : JsVal
  last : JsVal

/-- A value a pending promise can be resolved with. -/
inductive RespValue : Type
  | timestamp (t : ℚ)
  | nodes (ns : List (String × Option String × Option TagMap))
  | limits (startS endS : ℚ)
  | version (v : String)
  | dataPoints (dps : List (ℚ × List (Option String × SigVal)))
  | events (evts : List Event)
  | count (c : Int)

/-- The settlement of a stored promise. -/
inductive Outcome : Type
  | resolved (v : RespValue)
  | rejected (msg : String)

/-- The guarded settle pattern used throughout `_parseMessage` and the internal
reject helpers: `if (this.storedPromises[id]) { delete; settle }` — a no-op
when the id is unknown. -/
def settleIfStored (st : ClientState) (rid : Int) (out : Outcome) :
    ClientState × List (Int × Outcome) :=
  if rid ∈ st.storedPromises then
    ({ st with storedPromises := st.storedPromises.filter (fun k => k ≠ rid) }, [(rid, out)])
  else (st, [])

/-- Models `_sendEventSenderTagsRequest`: allocates a fresh request id and sends an
eEventSenderTagsRequest frame for the sender. -/
def sendEventSenderTagsRequest (st : ClientState) (sender : String) :
    ClientState × List Frame :=
  let (rid, st1) := getRequestId st
  (st1, [.eventSenderTagsRequest rid sender])

/-- Models `_requestTime` (only ever called with time sync enabled, from
`_updateTimeDiff`): records `lastTimeRequest`, sends an eTimeRequest frame and
registers the probe's pending promise. -/
def requestTime (st : ClientState) (now : ℚ) (rid : Int) : ClientState × List Frame :=
  ({ st with lastTimeRequest := now,
             storedPromises := st.storedPromises ++ [rid] }, [.timeRequest rid])

/-- Models `_updateTimeDiff`: starts one time probe (no-op when sync is disabled). -/
def updateTimeDiff (st : ClientState) (now : ℚ) : ClientState × List Frame :=
  if !st.enableTimeSync then (st, [])
  else
    let (rid, st1) := getRequestId st
    requestTime st1 now rid

/-- Models `_timeRequest`: start a new sync cycle when more than 10 seconds have
elapsed since the last one began. -/
def timeRequest (st : ClientState) (now : ℚ) : ClientState × List Frame :=
  if !st.enableTimeSync then (st, [])
  else if now > st.lastTimeRequest + 10 then updateTimeDiff st now
  else (st, [])

/-- Models `this.nameToType[name] || CDPValueType.eDOUBLE` (an undefined signal name
looks up nothing and also defaults). -/
def typeOfSignal (st : ClientState) (name : Option String) : CDPValueType :=
  (name.bind (assocGet st.nameToType)).getD .eDOUBLE

/-- Models `_valueFromVariant`: `null` for a missing variant, else the field selected
by the value type. -/
def valueFromVariant (variant : Option Variant) (type : CDPValueType) : JsVal :=
  match variant with
  | none => .null
  | some v =>
    match type with
    | .eDOUBLE => v.dValue
    | .eFLOAT => v.fValue
    | .eUINT64 => v.ui64Value
    | .eINT64 => v.i64Value
    | .eUINT => v.uiValue
    | .eINT => v.iValue
    | .eUSHORT => v.usValue
    | .eSHORT => v.sValue
    | .eUCHAR => v.ucValue
    | .eCHAR => v.cValue
    | .eBOOL => v.bValue
    | .eSTRING => v.strValue
    | .eUNDEFINED => .null

/-- Models `_createValue`: builds the per-row value object keyed by signal name.
When the server omits the min/max arrays, min and max repeat the last value
(the server does not send min and max when they equal last). A signal name
that failed id-to-name translation is `none` (the JS `undefined` key). -/
def createValue (st : ClientState) (signalNames : List (Option String))
    (minValues maxValues lastValues : List Variant) :
    List (Option String × SigVal) :=
  (List.range signalNames.length).foldl (fun value i =>
    let name := signalNames.getD i none
    let signalType := typeOfSignal st name
    if minValues.length = 0 ∨ maxValues.length = 0 then
      let last := valueFromVariant (lastValues.get? i) signalType
      assocSet value name ⟨last, last, last⟩
    else
      assocSet value name
        ⟨valueFromVariant (minValues.get? i) signalType,
         valueFromVariant (maxValues.get? i) signalType,
         valueFromVariant (lastValues.get? i) signalType⟩) []

/-- Models `getEventCodeDescription`: bit-flag names joined with " + ". -/
def getEventCodeDescription (code : Nat) : String :=
  let flags : List String :=
    (if code &&& 0x1 ≠ 0 then ["AlarmSet"] else []) ++
    (if code &&& 0x2 ≠ 0 then ["AlarmClr"] else []) ++
    (if code &&& 0x4 ≠ 0 then ["AlarmAck"] else []) ++
    (if code &&& 0x40 ≠ 0 then ["AlarmReprise"] else []) ++
    (if code &&& 0x100 ≠ 0 then ["SourceObjectUnavailable"] else []) ++
    (if code &&& 0x40000000 ≠ 0 then ["NodeBoot"] else [])
  let flags := if flags = [] then ["None"] else flags
  String.intercalate " + " flags

/-- Models `_sendDataPointsRequest`: the eSignalDataRequest frame; the time range is
translated into the server's frame when time sync is enabled. -/
def sendDataPointsRequest (st : ClientState) (nodeIds : List Int)
    (startS endS : ℚ) (requestId : Int) (noOfDataPoints limit : ℚ) : Frame :=
  .signalDataRequest requestId nodeIds limit noOfDataPoints
    (if st.enableTimeSync then startS - st.timeDiff else startS)
    (if st.enableTimeSync then endS - st.timeDiff else endS)

/-- Models `requestLoggedNodes` as invoked internally by `_requestNodeIds` (the
connection is open at that point): `_timeRequest`, allocate an id, send the
eSignalInfoRequest and register the pending promise. -/
def requestLoggedNodesNow (st : ClientState) (now : ℚ) : ClientState × List Frame :=
  let (st0, tf) := timeRequest st now
  let (rid, st1) := getRequestId st0
  ({ st1 with storedPromises := st1.storedPromises ++ [rid] },
   tf ++ [.signalInfoRequest rid])

/-- The synchronous effects of `_reqDataPoints`: an invalid range rejects the
pending promise at once; otherwise, if every name resolves in the directory
the eSignalDataRequest goes out now, and if some name is missing a directory
refresh (`requestLoggedNodes`) goes out instead — the re-check after the
refresh is modelled by `requestNodeIds`. -/
def reqDataPoints (st : ClientState) (now : ℚ) (nodeNames : List String)
    (startS endS noOfDataPoints limit : ℚ) (requestId : Int) :
    ClientState × List Frame × List (Int × Outcome) :=
  if ¬(endS < startS) then
    if nodeNames.all (fun n => (assocGet st.nameToId n).isSome) then
      (st, [sendDataPointsRequest st
              (nodeNames.map (fun n => (assocGet st.nameToId n).getD 0))
              startS endS requestId noOfDataPoints limit], [])
    else
      let (st1, fs) := requestLoggedNodesNow st now
      (st1, fs, [])
  else
    let (st1, outs) := settleIfStored st requestId
      (.rejected "InvalidRequestError on node values request: endS cannot be smaller than startS")
    (st1, [], outs)

/-- Insert an entry into a key-sorted list (ascending request id). -/
def insertByKey (p : Int × QueuedRequest) :
    List (Int × QueuedRequest) → List (Int × QueuedRequest)
  | [] => [p]
  | q :: rest => if p.1 ≤ q.1 then p :: q :: rest else q :: insertByKey p rest

/-- JS `for (const requestId in obj)` visits canonical integer keys in
ascending numeric order, whatever the insertion order was; modelled by
sorting the association list by key. -/
def sortByKey : List (Int × QueuedRequest) → List (Int × QueuedRequest)
  | [] => []
  | p :: rest => insertByKey p (sortByKey rest)

/-- The body of the `_sendQueuedRequests` loop for one queued descriptor. Note
there is no branch for `countEvents` descriptors: they produce nothing. -/
def dispatchQueued (st : ClientState) (now : ℚ) (requestId : Int) :
    QueuedRequest → ClientState × List Frame × List (Int × Outcome)
  | .loggedNodes => (st, [.signalInfoRequest requestId], [])
  | .logLimits => (st, [.criterionLimitsRequest requestId], [])
  | .nodeValues names startS endS noOfDataPoints limit =>
      reqDataPoints st now names startS endS noOfDataPoints limit requestId
  | .apiVersion => (st, [.versionRequest requestId], [])
  | .events q => (st, [.eventsRequest requestId q], [])
  | .countEvents _ => (st, [], [])

/-- The loop of `_sendQueuedRequests`, over an already key-ordered list. -/
def flushQueued (now : ℚ) (l : List (Int × QueuedRequest))
    (acc : ClientState × List Frame × List (Int × Outcome)) :
    ClientState × List Frame × List (Int × Outcome) :=
  l.foldl
    (fun acc p =>
      let (s', fs', outs') := dispatchQueued acc.1 now p.1 p.2
      (s', acc.2.1 ++ fs', acc.2.2 ++ outs'))
    acc

/-- Models `_sendQueuedRequests`: iterate the queued descriptors (ascending request
id) dispatching each, then clear the queue. -/
def sendQueuedRequests (st : ClientState) (now : ℚ) :
    ClientState × List Frame × List (Int × Outcome) :=
  let r := flushQueued now (sortByKey st.queuedRequests) (st, [], [])
  ({ r.1 with queuedRequests := [] }, r.2.1, r.2.2)

/-- Models `Math.min(...Object.keys(this.roundTripTimes).map(Number))` (the list is
never empty where this is used; the empty case is arbitrary). -/
def minKey : List (ℚ × ℚ) → ℚ
  | [] => 0
  | (k, _) :: rest => rest.foldl (fun acc p => min acc p.1) k

/-- Models `_setTimeDiff(timestamp, timeSent)`: record the probe's
(round-trip → offset) sample; start another probe until 3 samples exist;
on the third, adopt the offset of the minimal round trip, discard the samples
and (once only) flush the request queue. -/
def setTimeDiff (st : ClientState) (now timestamp timeSent : ℚ) :
    ClientState × List Frame × List (Int × Outcome) :=
  if !st.enableTimeSync then (st, [], [])
  else
    let clientTime := st.timeReceived.getD 0
    let roundTripTime := clientTime - timeSent
    let serverTime := timestamp / 1000000000 + roundTripTime / 2
    let timeDiff := clientTime - serverTime
    let rtts := assocSet st.roundTripTimes roundTripTime timeDiff
    if rtts.length ≠ 3 then
      let (st1, fs) := updateTimeDiff { st with roundTripTimes := rtts } now
      (st1, fs, [])
    else
      let minRoundTrip := minKey rtts
      let st1 := { st with timeDiff := (assocGet rtts minRoundTrip).getD 0,
                           roundTripTimes := [] }
      if !st.haveSentQueuedReq then
        let (st2, fs, outs) := sendQueuedRequests st1 now
        ({ st2 with haveSentQueuedReq := true }, fs, outs)
      else (st1, [], [])

/-- A completed probe exchange: the eTimeResponse handler records
`timeReceived = Date.now()/1000` and resolves the probe's promise, whose
continuation runs `_setTimeDiff(timestamp, timeSent)`. -/
def probeResponse (st : ClientState) (now timestamp timeSent : ℚ) :
    ClientState × List Frame × List (Int × Outcome) :=
  setTimeDiff { st with timeReceived := some now } now timestamp timeSent

/-- Models `_onOpen`: mark open; start a sync cycle when time sync is enabled; record
the open time as the re-sync baseline. -/
def onOpen (st : ClientState) (now : ℚ) : ClientState × List Frame :=
  let st0 := { st with isOpen := true }
  let (st1, fs) := if st0.enableTimeSync then updateTimeDiff st0 now else (st0, [])
  ({ st1 with lastTimeRequest := now }, fs)

/-- The `_onError` loop over `pendingSenderTags`: reject every waiter of every
sender and delete each entry. -/
def rejectPendingTagWaiters (err : String) (l : List (String × List Nat))
    (acc : ClientState × List (Nat × String)) : ClientState × List (Nat × String) :=
  l.foldl
    (fun acc p =>
      ({ acc.1 with pendingSenderTags := assocDelete acc.1.pendingSenderTags p.1 },
       acc.2 ++ p.2.foldl (fun l w => l ++ [(w, err)]) []))
    acc

/-- Models `_onError`: reject every stored promise with the triggering error (or a
generic one when the event carries none), empty the promise registry and the
request queue, and reject and remove every pending sender-tag waiter. Returns
the rejected promise ids and the rejected waiter tokens, each with the
message used. -/
def onError (st : ClientState) (error : Option String) :
    ClientState × List (Int × String) × List (Nat × String) :=
  let err := error.getD "Something went wrong"
  let rejected := st.storedPromises.foldl (fun acc rid => acc ++ [(rid, err)]) []
  let st1 := { st with storedPromises := [] }
  let st2 := { st1 with queuedRequests := [] }
  let r := rejectPendingTagWaiters err st2.pendingSenderTags (st2, [])
  (r.1, rejected, r.2)

/-- Models `_onClose`: mark not-open; without auto-reconnect run the `_onError` sweep
with a "Connection was closed" error; with it, a reconnect timer is scheduled
(the second component tells whether one was). -/
def onClose (st : ClientState) :
    (ClientState × List (Int × String) × List (Nat × String)) × Bool :=
  let st0 := { st with isOpen := false }
  if !st0.autoReconnect then (onError st0 (some "Connection was closed"), false)
  else ((st0, [], []), true)

/-- Models `getSenderTags`: cached tags resolve immediately; otherwise the caller's
waiter token joins the sender's pending list, and only the first waiter for a
sender triggers the wire request. -/
def getSenderTags (st : ClientState) (sender : String) (token : Nat) :
    ClientState × List Frame × Option TagMap :=
  match assocGet st.senderTags sender with
  | some tags => (st, [], some tags)
  | none =>
    let (st1, fs) :=
      if (assocGet st.pendingSenderTags sender).isNone then
        let stI := { st with pendingSenderTags := assocSet st.pendingSenderTags sender [] }
        sendEventSenderTagsRequest stI sender
      else (st, [])
    let waiters := (assocGet st1.pendingSenderTags sender).getD []
    ({ st1 with pendingSenderTags := assocSet st1.pendingSenderTags sender (waiters ++ [token]) },
     fs, none)

/-- The allowed event-query keys and their expected shapes
(`allowedKeys` in `_validateEventQuery`). -/
def allowedQueryKeys : List (String × String) :=
  [("timeRangeBegin", "number"), ("timeRangeEnd", "number"), ("limit", "number"),
   ("offset", "number"), ("codeMask", "number"), ("flags", "number"),
   ("senderConditions", "array"), ("dataConditions", "object")]

/-- One iteration of the `_validateEventQuery` key loop. -/
def checkQueryKey (key : String) (v : JsVal) : Except String Unit :=
  match assocGet allowedQueryKeys key with
  | none => .error ("Invalid property \"" ++ key ++
      "\" in event query. Allowed properties are: timeRangeBegin, timeRangeEnd, limit, offset, codeMask, flags, senderConditions, dataConditions.")
  | some expected =>
      if expected = "number" ∧ typeofJs v ≠ "number" then
        .error ("Property \"" ++ key ++ "\" must be a number.")
      else if expected = "array" ∧ isArrayJs v = false then
        .error ("Property \"" ++ key ++ "\" must be an array.")
      else if expected = "object" ∧
          (typeofJs v ≠ "object" ∨ isNullJs v = true ∨ isArrayJs v = true) then
        .error ("Property \"" ++ key ++ "\" must be an object.")
      else .ok ()

/-- Models `_validateEventQuery`: visits the caller's keys in order and throws
at the first offending one. -/
def validateEventQuery : List (String × JsVal) → Except String Unit
  | [] => .ok ()
  | (k, v) :: rest =>
      match checkQueryKey k v with
      | .error e => .error e
      | .ok _ => validateEventQuery rest

/-- Reads a field of a JS object value (used for `value`/`matchType` access on
condition entries; non-objects, arrays included, expose no such field). -/
def jsFieldGet : JsVal → String → Option JsVal
  | .obj fields, k => assocGet fields k
  | _, _ => none

/-- Accessing `query[field]`, where an absent key and an `undefined` value are
indistinguishable (`query[field] !== undefined`). -/
def jsGet (query : List (String × JsVal)) (k : String) : Option JsVal :=
  match assocGet query k with
  | some .undefined => none
  | o => o

/-- Builds one sender condition: a (non-null) object must carry a `value`
property, which is stringified, with `matchType` defaulting to Wildcard (1);
any other value is used raw with Wildcard matching. The source appends the
JSON rendering of the offending condition to the error message; that rendering
is omitted here. -/
def buildSenderCondition (c : JsVal) : Except String WireCondition :=
  if typeofJs c = "object" ∧ isNullJs c = false then
    match jsFieldGet c "value" with
    | none => .error "Sender condition object must include a \x27value\x27 property."
    | some v =>
        let t := match jsFieldGet c "matchType" with
          | none => JsVal.num 1
          | some .undefined => JsVal.num 1
          | some mt => mt
        .ok ⟨.str (jsToString v), t⟩
  else .ok ⟨c, .num 1⟩

/-- Builds one data-condition entry for a key (object items need a `value`
property; primitives are stringified with Wildcard matching). -/
def buildDataConditionItem (key : String) (item : JsVal) : Except String WireCondition :=
  if typeofJs item = "object" ∧ isNullJs item = false then
    match jsFieldGet item "value" with
    | none => .error ("Data condition for key \"" ++ key ++
        "\" must include a \x27value\x27 property.")
    | some v =>
        let t := match jsFieldGet item "matchType" with
          | none => JsVal.num 1
          | some .undefined => JsVal.num 1
          | some mt => mt
        .ok ⟨.str (jsToString v), t⟩
  else .ok ⟨.str (jsToString item), .num 1⟩

/-- Builds the condition list for one data-condition key: an array maps each
item, anything else is a single item. -/
def buildDataCondition (key : String) (val : JsVal) : Except String (List WireCondition) :=
  match val with
  | .arr items => items.mapM (buildDataConditionItem key)
  | v => (buildDataConditionItem key v).map (fun c => [c])

/-- Builds the map of data conditions, visiting keys in order. -/
def buildDataConditions (fields : List (String × JsVal)) :
    Except String (List (String × List WireCondition)) :=
  fields.mapM (fun p => (buildDataCondition p.1 p.2).map (fun cs => (p.1, cs)))

/-- Models `_buildEventQuery`: validate, copy the provided scalar fields, then
build sender and data conditions (each step can throw). -/
def buildEventQuery (query : List (String × JsVal)) : Except String WireEventQuery := do
  match validateEventQuery query with
  | .error e => .error e
  | .ok _ =>
    let base : WireEventQuery :=
      { timeRangeBegin := jsGet query "timeRangeBegin"
        timeRangeEnd := jsGet query "timeRangeEnd"
        codeMask := jsGet query "codeMask"
        limit := jsGet query "limit"
        offset := jsGet query "offset"
        flags := jsGet query "flags" }
    let base1 ←
      match jsGet query "senderConditions" with
      | some (.arr items) =>
          if items.length > 0 then
            (items.mapM buildSenderCondition).map
              (fun cs => { base with senderConditions := some cs })
          else pure base
      | _ => pure base
    match jsGet query "dataConditions" with
    | some (.obj fields) =>
        (buildDataConditions fields).map
          (fun dcs => { base1 with dataConditions := some dcs })
    | _ => pure base1

/-- Result of a public request-issuing operation: the new state, the frames
that went out, and either the allocated pending-request id or the
synchronously thrown validation error. -/
structure ReqResult : Type where
  state : ClientState
  sent : List Frame
  outcome : Except String Int

/-- Models `requestApiVersion`: `_timeRequest`, allocate an id, queue or send,
and register the pending promise (whose id is returned). -/
def requestApiVersion (st : ClientState) (now : ℚ) : ClientState × List Frame × Int :=
  let (st0, tf) := timeRequest st now
  let (rid, st1) := getRequestId st0
  let (st2, fs) :=
    if !st1.isOpen then
      ({ st1 with queuedRequests := assocSet st1.queuedRequests rid .apiVersion }, [])
    else (st1, [.versionRequest rid])
  ({ st2 with storedPromises := st2.storedPromises ++ [rid] }, tf ++ fs, rid)

/-- Models `requestLoggedNodes` (the public entry point). -/
def requestLoggedNodes (st : ClientState) (now : ℚ) : ClientState × List Frame × Int :=
  let (st0, tf) := timeRequest st now
  let (rid, st1) := getRequestId st0
  let (st2, fs) :=
    if !st1.isOpen then
      ({ st1 with queuedRequests := assocSet st1.queuedRequests rid .loggedNodes }, [])
    else (st1, [.signalInfoRequest rid])
  ({ st2 with storedPromises := st2.storedPromises ++ [rid] }, tf ++ fs, rid)

/-- Models `requestLogLimits`. -/
def requestLogLimits (st : ClientState) (now : ℚ) : ClientState × List Frame × Int :=
  let (st0, tf) := timeRequest st now
  let (rid, st1) := getRequestId st0
  let (st2, fs) :=
    if !st1.isOpen then
      ({ st1 with queuedRequests := assocSet st1.queuedRequests rid .logLimits }, [])
    else (st1, [.criterionLimitsRequest rid])
  ({ st2 with storedPromises := st2.storedPromises ++ [rid] }, tf ++ fs, rid)

/-- Models `requestDataPoints`: the promise is registered before the branch;
when open, `_reqDataPoints` may reject it synchronously on an invalid range. -/
def requestDataPoints (st : ClientState) (now : ℚ) (nodeNames : List String)
    (startS endS noOfDataPoints limit : ℚ) :
    ClientState × List Frame × List (Int × Outcome) × Int :=
  let (st0, tf) := timeRequest st now
  let (rid, st1) := getRequestId st0
  let st1 := { st1 with storedPromises := st1.storedPromises ++ [rid] }
  if !st1.isOpen then
    ({ st1 with queuedRequests :=
        assocSet st1.queuedRequests rid (.nodeValues nodeNames startS endS noOfDataPoints limit) },
     tf, [], rid)
  else
    let (st2, fs, outs) := reqDataPoints st1 now nodeNames startS endS noOfDataPoints limit rid
    (st2, tf ++ fs, outs, rid)

/-- Models `requestEvents` up to its promise: `_timeRequest`, allocate an id,
build (and validate) the query — a validation throw escapes before anything is
queued or sent — then queue or send and register the pending promise. The
enrichment continuation chained onto the promise is `missingSenders`,
`getSenderTagsAll` and `eventsContinuation` below. -/
def requestEvents (st : ClientState) (now : ℚ) (query : List (String × JsVal)) : ReqResult :=
  let (st0, tf) := timeRequest st now
  let (rid, st1) := getRequestId st0
  match buildEventQuery query with
  | .error e => ⟨st1, tf, .error e⟩
  | .ok q =>
    let (st2, fs) :=
      if !st1.isOpen then
        ({ st1 with queuedRequests := assocSet st1.queuedRequests rid (.events q) }, [])
      else (st1, [.eventsRequest rid q])
    ⟨{ st2 with storedPromises := st2.storedPromises ++ [rid] }, tf ++ fs, .ok rid⟩

/-- Models `countEvents`. -/
def countEvents (st : ClientState) (now : ℚ) (query : List (String × JsVal)) : ReqResult :=
  let (st0, tf) := timeRequest st now
  let (rid, st1) := getRequestId st0
  match buildEventQuery query with
  | .error e => ⟨st1, tf, .error e⟩
  | .ok q =>
    let (st2, fs) :=
      if !st1.isOpen then
        ({ st1 with queuedRequests := assocSet st1.queuedRequests rid (.countEvents q) }, [])
      else (st1, [.countEventsRequest rid q])
    ⟨{ st2 with storedPromises := st2.storedPromises ++ [rid] }, tf ++ fs, .ok rid⟩

/-- Models `parseIds` inside `_requestNodeIds`: reject at the first name
missing from the directory, else resolve every id. -/
def parseIds (dir : List (String × Int)) (names : List String) : Except String (List Int) :=
  match names.find? (fun n => (assocGet dir n).isNone) with
  | some n => .error ("Node with name " ++ n ++ " does not exist.")
  | none => .ok (names.map (fun n => (assocGet dir n).getD 0))

/-- Models the `_requestNodeIds` flow end to end: when every name is already in
the directory no refresh is issued and the ids resolve immediately; otherwise
exactly one `requestLoggedNodes` refresh is issued, its eSignalInfoResponse
replaces the directory with `refreshedDir`, and `parseIds` re-checks against
the replacement. The first component counts the refresh requests issued. -/
def requestNodeIds (dir refreshedDir : List (String × Int)) (names : List String) :
    Nat × Except String (List Int) :=
  if names.all (fun n => (assocGet dir n).isSome) then (0, parseIds dir names)
  else (1, parseIds refreshedDir names)

/-- The unique senders of the resolved events that lack cached tags
(the `missingSenders` computation inside `requestEvents`). -/
def missingSenders (st : ClientState) (events : List Event) : List String :=
  jsSetDedup
    ((events.filter (fun e => (assocGet st.senderTags e.sender).isNone)).map (fun e => e.sender))

/-- Runs `getSenderTags` for each listed sender (the `missingSenders.map`
inside `requestEvents`), with consecutive waiter tokens from `firstToken`. -/
def getSenderTagsAll (st : ClientState) (senders : List String) (firstToken : Nat) :
    ClientState × List Frame :=
  let r := senders.foldl
    (fun (acc : ClientState × List Frame × Nat) s =>
      let (s', fs', _) := getSenderTags acc.1 s acc.2.2
      (s', acc.2.1 ++ fs', acc.2.2 + 1))
    (st, [], firstToken)
  (r.1, r.2.1)

/-- The `Promise.all(...).then(...)` tail of `requestEvents`: resolvable only
once every missing sender has cached tags, at which point each event gets the
cache entry for its sender attached. -/
def eventsContinuation (st : ClientState) (events : List Event) (missing : List String) :
    Option (List Event) :=
  if missing.all (fun s => (assocGet st.senderTags s).isSome) then
    some (events.map (fun e => { e with tags := assocGet st.senderTags e.sender }))
  else none

/-- One decoded data row of an eSignalDataResponse. -/
structure DataRow : Type where
  signalId : List Int
  minValues : List Variant
  maxValues : List Variant
  lastValues : List Variant

/-- A decoded incoming container, one constructor per message type handled by
`_parseMessage`. The version response carries the numeric value `parseFloat`
yields alongside the raw string. Ragged response arrays (shorter than the name
list) are approximated by defaults; the claims never exercise them. -/
inductive Message : Type
  | error (requestId : Int) (errorMessage : String)
  | timeResponse (requestId : Int) (timestamp : ℚ)
  | signalInfoResponse (requestId : Int) (name : List String) (path : List String)
      (id : List Int) (tagMap : List (Option RawTagMap))
  | criterionLimitsResponse (requestId : Int) (criterionMin criterionMax : ℚ)
  | versionResponse (requestId : Int) (version : String) (versionParsed : ℚ)
  | signalDataResponse (requestId : Int) (criterion : List ℚ) (row : List DataRow)
  | eventsResponse (requestId : Int) (events : List Event)
  | countEventsResponse (requestId : Int) (count : Int)
  | eventSenderTagsResponse (senderTags : List (String × RawTagMap))

/-- The request id a message is correlated by, when it carries one. -/
def msgRequestId : Message → Option Int
  | .error rid _ => some rid
  | .timeResponse rid _ => some rid
  | .signalInfoResponse rid _ _ _ _ => some rid
  | .criterionLimitsResponse rid _ _ => some rid
  | .versionResponse rid _ _ => some rid
  | .signalDataResponse rid _ _ => some rid
  | .eventsResponse rid _ => some rid
  | .countEventsResponse rid _ => some rid
  | .eventSenderTagsResponse _ => none

/-- Everything `_parseMessage` produces: the new state, the settlements of
stored promises, the resolutions handed to pending sender-tag waiters, and the
frames sent while parsing. -/
structure ParseResult : Type where
  state : ClientState
  settled : List (Int × Outcome)
  tagsResolved : List (Nat × TagMap)
  sent : List Frame

/-- The event-enrichment loop of the eEventsResponse handler: attach the code
description; attach cached tags when the sender is cached, else fire a
sender-tag request for this event occurrence (one per occurrence — nothing is
recorded in `pendingSenderTags` here). -/
def enrichEvents (events : List Event) (acc : ClientState × List Frame × List Event) :
    ClientState × List Frame × List Event :=
  events.foldl
    (fun acc evt =>
      let evt1 := { evt with codeDescription := some (getEventCodeDescription evt.code) }
      match assocGet acc.1.senderTags evt.sender with
      | some tags => (acc.1, acc.2.1, acc.2.2 ++ [{ evt1 with tags := some tags }])
      | none =>
          let (s', fs') := sendEventSenderTagsRequest acc.1 evt.sender
          (s', acc.2.1 ++ fs', acc.2.2 ++ [evt1]))
    acc

/-- The eEventSenderTagsResponse loop: cache each sender's converted tags and
hand them to any waiters recorded for that sender, removing the pending
entry. -/
def applySenderTags (mapping : List (String × RawTagMap))
    (acc : ClientState × List (Nat × TagMap)) : ClientState × List (Nat × TagMap) :=
  mapping.foldl
    (fun acc p =>
      let tags := convertTagMap (some p.2)
      let s1 := { acc.1 with senderTags := assocSet acc.1.senderTags p.1 tags }
      match assocGet s1.pendingSenderTags p.1 with
      | some waiters =>
          ({ s1 with pendingSenderTags := assocDelete s1.pendingSenderTags p.1 },
           acc.2 ++ waiters.map (fun w => (w, tags)))
      | none => (s1, acc.2))
    acc

/-- Models `_parseMessage`, the response dispatcher. -/
def parseMessage (st : ClientState) (now : ℚ) : Message → ParseResult
  | .error rid msg =>
      ⟨(settleIfStored st rid (.rejected msg)).1,
       (settleIfStored st rid (.rejected msg)).2, [], []⟩
  | .timeResponse rid ts =>
      ⟨(settleIfStored { st with timeReceived := some now } rid (.resolved (.timestamp ts))).1,
       (settleIfStored { st with timeReceived := some now } rid (.resolved (.timestamp ts))).2,
       [], []⟩
  | .signalInfoResponse rid name path id tagMap =>
      let idxs := List.range name.length
      let nodes := idxs.map (fun i =>
        (name.getD i "", path.get? i,
         (tagMap.getD i none).map (fun r => convertTagMap (some r))))
      let newNameToId := idxs.foldl (fun m i => assocSet m (name.getD i "") (id.getD i 0)) []
      let newIdToName := idxs.foldl (fun m i => assocSet m (id.getD i 0) (name.getD i "")) []
      let st0 := { st with nameToId := newNameToId, idToName := newIdToName }
      ⟨(settleIfStored st0 rid (.resolved (.nodes nodes))).1,
       (settleIfStored st0 rid (.resolved (.nodes nodes))).2, [], []⟩
  | .criterionLimitsResponse rid cmin cmax =>
      let mn := if st.enableTimeSync then cmin + st.timeDiff else cmin
      let mx := if st.enableTimeSync then cmax + st.timeDiff else cmax
      ⟨(settleIfStored st rid (.resolved (.limits mn mx))).1,
       (settleIfStored st rid (.resolved (.limits mn mx))).2, [], []⟩
  | .versionResponse rid v vParsed =>
      if vParsed < 3 then
        ⟨(settleIfStored st rid (.rejected "CDP version needs to be 4.3 or newer.")).1,
         (settleIfStored st rid (.rejected "CDP version needs to be 4.3 or newer.")).2, [], []⟩
      else
        ⟨(settleIfStored st rid (.resolved (.version v))).1,
         (settleIfStored st rid (.resolved (.version v))).2, [], []⟩
  | .signalDataResponse rid criterion rows =>
      let dps := rows.enum.map (fun p =>
        let ts := (criterion.getD p.1 0) + (if st.enableTimeSync then st.timeDiff else 0)
        let names := p.2.signalId.map (fun sid => assocGet st.idToName sid)
        (ts, createValue st names p.2.minValues p.2.maxValues p.2.lastValues))
      ⟨(settleIfStored st rid (.resolved (.dataPoints dps))).1,
       (settleIfStored st rid (.resolved (.dataPoints dps))).2, [], []⟩
  | .eventsResponse rid events =>
      let r := enrichEvents events (st, [], [])
      ⟨(settleIfStored r.1 rid (.resolved (.events r.2.2))).1,
       (settleIfStored r.1 rid (.resolved (.events r.2.2))).2, [], r.2.1⟩
  | .countEventsResponse rid c =>
      ⟨(settleIfStored st rid (.resolved (.count c))).1,
       (settleIfStored st rid (.resolved (.count c))).2, [], []⟩
  | .eventSenderTagsResponse mapping =>
      let r := applySenderTags mapping (st, [])
      ⟨r.1, [], r.2, []⟩

/-! ### Helper lemmas -/

lemma foldl_append_pair {α β : Type} (f : α → β) (l : List α) (acc : List β) :
    l.foldl (fun acc w => acc ++ [f w]) acc = acc ++ l.map f := by
  induction l generalizing acc with
  | nil => simp
  | cons x rest ih => simp [ih]

lemma rejectPendingTagWaiters_cons (err : String) (p : String × List Nat)
    (rest : List (String × List Nat)) (acc : ClientState × List (Nat × String)) :
    rejectPendingTagWaiters err (p :: rest) acc =
      rejectPendingTagWaiters err rest
        ({ acc.1 with pendingSenderTags := assocDelete acc.1.pendingSenderTags p.1 },
         acc.2 ++ p.2.foldl (fun l w => l ++ [(w, err)]) []) := rfl

lemma rejectPendingTagWaiters_state (err : String) (l : List (String × List Nat))
    (acc : ClientState × List (Nat × String)) :
    (rejectPendingTagWaiters err l acc).1 =
      { acc.1 with pendingSenderTags :=
          (l.foldl (fun m p => assocDelete m p.1) acc.1.pendingSenderTags) } := by
  induction l generalizing acc with
  | nil => rfl
  | cons p rest ih =>
      rw [rejectPendingTagWaiters_cons, ih]
      rfl

lemma rejectPendingTagWaiters_rejections (err : String) (l : List (String × List Nat))
    (acc : ClientState × List (Nat × String)) :
    (rejectPendingTagWaiters err l acc).2 =
      acc.2 ++ l.flatMap (fun p => p.2.map (fun w => (w, err))) := by
  induction l generalizing acc with
  | nil => simp [rejectPendingTagWaiters]
  | cons p rest ih =>
      rw [rejectPendingTagWaiters_cons, ih]
      simp [foldl_append_pair]

lemma foldl_assocDelete_self {β : Type} :
    ∀ (l : List (String × β)), (l.map Prod.fst).Nodup →
      l.foldl (fun (m : List (String × β)) p => assocDelete m p.1) l = [] := by
  intro l
  induction l with
  | nil => intro _; rfl
  | cons p rest ih =>
      intro hnd
      have h1 : assocDelete (p :: rest) p.1 = rest := by simp [assocDelete]
      rw [List.foldl_cons, h1]
      have hnd' : (rest.map Prod.fst).Nodup := (List.nodup_cons.mp hnd).2
      -- the remaining fold deletes every key of `rest` from `rest`
      exact ih hnd'

lemma onError_reqId (st : ClientState) (e : Option String) :
    (onError st e).1.reqId = st.reqId := by
  simp only [onError, rejectPendingTagWaiters_state]

/-! ### C5: the request-id allocator -/

/-- C5: later allocator calls return strictly greater ids — two allocated ids
are never equal — and a connection close (the event driving reconnection)
never resets the counter. -/
theorem requestId_strictly_increasing (st : ClientState) (i j : Nat) (h : i < j) :
    idAfter st i < idAfter st j ∧ idAfter st i ≠ idAfter st j ∧
    (onClose st).1.1.reqId = st.reqId := by
  refine ⟨?_, ?_, ?_⟩
  · rw [idAfter_eq, idAfter_eq]
    have : (i : Int) < (j : Int) := by exact_mod_cast h
    linarith
  · rw [idAfter_eq, idAfter_eq]
    have : (i : Int) < (j : Int) := by exact_mod_cast h
    intro heq
    omega
  · cases hb : st.autoReconnect
    · simp [onClose, hb, onError_reqId]
    · simp [onClose, hb]

/-- Witness for C5 at a concrete client and indices. -/
theorem requestId_strictly_increasing_witness :
    idAfter (initialState true 0) 0 < idAfter (initialState true 0) 2 ∧
    idAfter (initialState true 0) 0 ≠ idAfter (initialState true 0) 2 ∧
    (onClose (initialState true 0)).1.1.reqId = (initialState true 0).reqId :=
  requestId_strictly_increasing (initialState true 0) 0 2 (by norm_num)

/-! ### C6: the transport-error sweep -/

/-- C6: a transport error rejects every outstanding stored promise with the
triggering error, empties the stored-promise registry and the request queue,
and rejects (and removes) every pending sender-tag waiter with the same
error — a bulk sweep over queued and in-flight work alike. -/
theorem connection_error_sweeps_all (st : ClientState) (err : String)
    (hnodup : (st.pendingSenderTags.map Prod.fst).Nodup) :
    (onError st (some err)).2.1 = st.storedPromises.map (fun rid => (rid, err)) ∧
    (onError st (some err)).2.2 =
      st.pendingSenderTags.flatMap (fun p => p.2.map (fun w => (w, err))) ∧
    (onError st (some err)).1.storedPromises = [] ∧
    (onError st (some err)).1.queuedRequests = [] ∧
    (onError st (some err)).1.pendingSenderTags = [] := by
  refine ⟨?_, ?_, ?_, ?_, ?_⟩
  · simp [onError, foldl_append_pair]
  · simp [onError, rejectPendingTagWaiters_rejections]
  · simp [onError, rejectPendingTagWaiters_state]
  · simp [onError, rejectPendingTagWaiters_state]
  · simp only [onError, rejectPendingTagWaiters_state, Option.getD_some]
    exact foldl_assocDelete_self st.pendingSenderTags hnodup

/-- Witness for C6 at a concrete state with one stored promise, one queued
request and one pending sender-tag waiter. -/
theorem connection_error_sweeps_all_witness :
    ((([("S", [4])] : List (String × List Nat)).map Prod.fst).Nodup) ∧
    (onError { initialState true 0 with
                 storedPromises := [9],
                 queuedRequests := [(3, .apiVersion)],
                 pendingSenderTags := [("S", [4])] } (some "boom")).2.1 =
      [(9, "boom")] ∧
    (onError { initialState true 0 with
                 storedPromises := [9],
                 queuedRequests := [(3, .apiVersion)],
                 pendingSenderTags := [("S", [4])] } (some "boom")).2.2 =
      [(4, "boom")] ∧
    (onError { initialState true 0 with
                 storedPromises := [9],
                 queuedRequests := [(3, .apiVersion)],
                 pendingSenderTags := [("S", [4])] } (some "boom")).1.pendingSenderTags = [] := by
  have h := connection_error_sweeps_all
    { initialState true 0 with
        storedPromises := [9],
        queuedRequests := [(3, .apiVersion)],
        pendingSenderTags := [("S", [4])] } "boom" (by simp)
  exact ⟨by simp, by simpa using h.1, by simpa using h.2.1, h.2.2.2.2⟩

/-! ### C4: unknown, duplicate or late correlation ids -/

lemma settleIfStored_not_mem (st : ClientState) (rid : Int) (out : Outcome)
    (h : rid ∉ st.storedPromises) : settleIfStored st rid out = (st, []) := by
  simp [settleIfStored, h]

lemma enrichEvents_nil (acc : ClientState × List Frame × List Event) :
    enrichEvents [] acc = acc := rfl

lemma enrichEvents_cons (e : Event) (rest : List Event)
    (acc : ClientState × List Frame × List Event) :
    enrichEvents (e :: rest) acc =
      enrichEvents rest
        (match assocGet acc.1.senderTags e.sender with
         | some tags =>
             (acc.1, acc.2.1, acc.2.2 ++
               [{ e with codeDescription := some (getEventCodeDescription e.code),
                         tags := some tags }])
         | none =>
             ((sendEventSenderTagsRequest acc.1 e.sender).1,
              acc.2.1 ++ (sendEventSenderTagsRequest acc.1 e.sender).2,
              acc.2.2 ++ [{ e with codeDescription := some (getEventCodeDescription e.code) }])) := by
  cases h : assocGet acc.1.senderTags e.sender <;>
    simp [enrichEvents, sendEventSenderTagsRequest, h]

lemma enrichEvents_state_fields (events : List Event) :
    ∀ (acc : ClientState × List Frame × List Event),
      (enrichEvents events acc).1.storedPromises = acc.1.storedPromises ∧
      (enrichEvents events acc).1.senderTags = acc.1.senderTags ∧
      (enrichEvents events acc).1.pendingSenderTags = acc.1.pendingSenderTags ∧
      (enrichEvents events acc).1.queuedRequests = acc.1.queuedRequests := by
  induction events with
  | nil => intro acc; exact ⟨rfl, rfl, rfl, rfl⟩
  | cons e rest ih =>
      intro acc
      rw [enrichEvents_cons]
      cases h : assocGet acc.1.senderTags e.sender with
      | some tags =>
          simp only [h]
          exact ih _
      | none =>
          simp only [h]
          obtain ⟨h1, h2, h3, h4⟩ := ih
            ((sendEventSenderTagsRequest acc.1 e.sender).1,
             acc.2.1 ++ (sendEventSenderTagsRequest acc.1 e.sender).2,
             acc.2.2 ++ [{ e with codeDescription := some (getEventCodeDescription e.code) }])
          rw [h1, h2, h3, h4]
          exact ⟨rfl, rfl, rfl, rfl⟩

/-- C4: an incoming response or error frame that carries a request id with no
stored promise settles nothing and leaves the stored-promise map unchanged —
the frame is dropped, not an error. -/
theorem unknown_id_frame_dropped (st : ClientState) (now : ℚ) (m : Message) (rid : Int)
    (hid : msgRequestId m = some rid) (hmem : rid ∉ st.storedPromises) :
    (parseMessage st now m).settled = [] ∧
    (parseMessage st now m).state.storedPromises = st.storedPromises := by
  cases m with
  | error rid' msg =>
      obtain rfl : rid' = rid := by simpa [msgRequestId] using hid
      simp [parseMessage, settleIfStored, hmem]
  | timeResponse rid' ts =>
      obtain rfl : rid' = rid := by simpa [msgRequestId] using hid
      simp [parseMessage, settleIfStored, hmem]
  | signalInfoResponse rid' name path id tagMap =>
      obtain rfl : rid' = rid := by simpa [msgRequestId] using hid
      simp [parseMessage, settleIfStored, hmem]
  | criterionLimitsResponse rid' cmin cmax =>
      obtain rfl : rid' = rid := by simpa [msgRequestId] using hid
      simp [parseMessage, settleIfStored, hmem]
  | versionResponse rid' v vp =>
      obtain rfl : rid' = rid := by simpa [msgRequestId] using hid
      by_cases h : vp < 3 <;> simp [parseMessage, settleIfStored, hmem, h]
  | signalDataResponse rid' criterion rows =>
      obtain rfl : rid' = rid := by simpa [msgRequestId] using hid
      simp [parseMessage, settleIfStored, hmem]
  | eventsResponse rid' evts =>
      have hr : rid' = rid := by simpa [msgRequestId] using hid
      subst hr
      have hpres := (enrichEvents_state_fields evts (st, [], [])).1
      have hnm : rid' ∉ (enrichEvents evts (st, [], [])).1.storedPromises := by
        rw [hpres]; exact hmem
      constructor
      · simp [parseMessage, settleIfStored, hnm]
      · simp only [parseMessage]
        rw [settleIfStored_not_mem _ _ _ hnm]
        exact hpres
  | countEventsResponse rid' c =>
      obtain rfl : rid' = rid := by simpa [msgRequestId] using hid
      simp [parseMessage, settleIfStored, hmem]
  | eventSenderTagsResponse mapping => simp [msgRequestId] at hid

/-- Witness for C4: an error frame for id 2 while only id 1 is outstanding. -/
theorem unknown_id_frame_dropped_witness :
    msgRequestId (.error 2 "boom") = some 2 ∧
    (2 : Int) ∉ ({ initialState true 0 with storedPromises := [1] } : ClientState).storedPromises ∧
    (parseMessage { initialState true 0 with storedPromises := [1] } 0 (.error 2 "boom")).settled = [] ∧
    (parseMessage { initialState true 0 with storedPromises := [1] } 0
        (.error 2 "boom")).state.storedPromises = [1] := by
  have h := unknown_id_frame_dropped
    { initialState true 0 with storedPromises := [1] } 0 (.error 2 "boom") 2
    rfl (by simp)
  exact ⟨rfl, by simp, h.1, h.2⟩

/-! ### C10: omitted min/max arrays default to the last value -/

lemma mem_assocSet {κ β : Type} [DecidableEq κ] (P : κ × β → Prop) :
    ∀ (m : List (κ × β)) (k : κ) (v : β), (∀ p ∈ m, P p) → P (k, v) →
      ∀ p ∈ assocSet m k v, P p := by
  intro m
  induction m with
  | nil =>
      intro k v _ hkv p hp
      simp only [assocSet, List.mem_singleton] at hp
      exact hp ▸ hkv
  | cons q rest ih =>
      intro k v hm hkv p hp
      by_cases hk : q.1 = k
      · simp only [assocSet, hk, if_true, List.mem_cons] at hp
        rcases hp with hp | hp
        · exact hp ▸ hkv
        · exact hm p (List.mem_cons_of_mem _ hp)
      · rcases q with ⟨qk, qv⟩
        simp only [assocSet, hk, if_false, List.mem_cons] at hp
        rcases hp with hp | hp
        · exact hp ▸ hm (qk, qv) (List.mem_cons_self _ _)
        · exact ih k v (fun r hr => hm r (List.mem_cons_of_mem _ hr)) hkv p hp

lemma foldl_assocSet_mem {κ β : Type} [DecidableEq κ] (key : Nat → κ) (val : Nat → β)
    (P : κ × β → Prop) :
    ∀ (idxs : List Nat) (acc : List (κ × β)),
      (∀ p ∈ acc, P p) → (∀ i ∈ idxs, P (key i, val i)) →
      ∀ p ∈ idxs.foldl (fun m i => assocSet m (key i) (val i)) acc, P p := by
  intro idxs
  induction idxs with
  | nil => intro acc hacc _ p hp; exact hacc p hp
  | cons i rest ih =>
      intro acc hacc hkey p hp
      rw [List.foldl_cons] at hp
      refine ih _ ?_ (fun j hj => hkey j (List.mem_cons_of_mem _ hj)) p hp
      exact mem_assocSet P acc (key i) (val i) hacc (hkey i (List.mem_cons_self _ _))

lemma createValue_empty_eq (st : ClientState) (names : List (Option String))
    (lastValues : List Variant) :
    createValue st names [] [] lastValues =
      (List.range names.length).foldl (fun m i =>
        assocSet m (names.getD i none)
          (SigVal.mk (valueFromVariant (lastValues.get? i) (typeOfSignal st (names.getD i none)))
            (valueFromVariant (lastValues.get? i) (typeOfSignal st (names.getD i none)))
            (valueFromVariant (lastValues.get? i) (typeOfSignal st (names.getD i none))))) [] := by
  unfold createValue
  apply List.foldl_ext
  intro m i _
  simp

/-- C10: in a data-points row whose min and max arrays are both omitted
(empty), every signal entry in the decoded value object has its min, max and
last fields all equal to the decoded last value of that signal. -/
theorem omitted_min_max_default_to_last (st : ClientState)
    (signalNames : List (Option String)) (lastValues : List Variant)
    (p : Option String × SigVal) (hp : p ∈ createValue st signalNames [] [] lastValues) :
    ∃ i, i < signalNames.length ∧ p.1 = signalNames.getD i none ∧
      p.2.min = valueFromVariant (lastValues.get? i) (typeOfSignal st (signalNames.getD i none)) ∧
      p.2.max = valueFromVariant (lastValues.get? i) (typeOfSignal st (signalNames.getD i none)) ∧
      p.2.last = valueFromVariant (lastValues.get? i) (typeOfSignal st (signalNames.getD i none)) := by
  rw [createValue_empty_eq] at hp
  refine foldl_assocSet_mem
    (fun i => signalNames.getD i none)
    (fun i => SigVal.mk (valueFromVariant (lastValues.get? i) (typeOfSignal st (signalNames.getD i none)))
      (valueFromVariant (lastValues.get? i) (typeOfSignal st (signalNames.getD i none)))
      (valueFromVariant (lastValues.get? i) (typeOfSignal st (signalNames.getD i none))))
    (fun p => ∃ i, i < signalNames.length ∧ p.1 = signalNames.getD i none ∧
      p.2.min = valueFromVariant (lastValues.get? i) (typeOfSignal st (signalNames.getD i none)) ∧
      p.2.max = valueFromVariant (lastValues.get? i) (typeOfSignal st (signalNames.getD i none)) ∧
      p.2.last = valueFromVariant (lastValues.get? i) (typeOfSignal st (signalNames.getD i none)))
    (List.range signalNames.length) [] (by simp) ?_ p hp
  intro i hi
  exact ⟨i, List.mem_range.mp hi, rfl, rfl, rfl, rfl⟩

/-- Witness for C10 at a one-signal row. -/
theorem omitted_min_max_default_to_last_witness :
    (some "Output", SigVal.mk (.num 5) (.num 5) (.num 5)) ∈
      createValue (initialState true 0) [some "Output"] [] [] [{ dValue := .num 5 }] ∧
    ∃ i, i < 1 ∧ (some "Output" : Option String) = [some "Output"].getD i none ∧
      (SigVal.mk (.num 5) (.num 5) (.num 5)).min =
        valueFromVariant (([{ dValue := JsVal.num 5 }] : List Variant).get? i)
          (typeOfSignal (initialState true 0) ([some "Output"].getD i none)) := by
  have hmem : (some "Output", SigVal.mk (.num 5) (.num 5) (.num 5)) ∈
      createValue (initialState true 0) [some "Output"] [] [] [{ dValue := .num 5 }] := by
    show _ ∈ ([(some "Output", SigVal.mk (.num 5) (.num 5) (.num 5))] :
      List (Option String × SigVal))
    exact List.mem_singleton.mpr rfl
  have h := omitted_min_max_default_to_last (initialState true 0)
    [some "Output"] [{ dValue := .num 5 }] _ hmem
  obtain ⟨i, hi, h1, h2, _, _⟩ := h
  exact ⟨hmem, i, hi, h1, h2⟩

/-! ### C1: the time-synchronization cycle adopts the minimal round trip -/

lemma dispatchQueued_preserves (st : ClientState) (now : ℚ) (rid : Int) (q : QueuedRequest) :
    (dispatchQueued st now rid q).1.timeDiff = st.timeDiff ∧
    (dispatchQueued st now rid q).1.roundTripTimes = st.roundTripTimes ∧
    (dispatchQueued st now rid q).1.enableTimeSync = st.enableTimeSync ∧
    (dispatchQueued st now rid q).1.timeReceived = st.timeReceived ∧
    (dispatchQueued st now rid q).1.haveSentQueuedReq = st.haveSentQueuedReq := by
  cases q with
  | apiVersion => exact ⟨rfl, rfl, rfl, rfl, rfl⟩
  | loggedNodes => exact ⟨rfl, rfl, rfl, rfl, rfl⟩
  | logLimits => exact ⟨rfl, rfl, rfl, rfl, rfl⟩
  | events _ => exact ⟨rfl, rfl, rfl, rfl, rfl⟩
  | countEvents _ => exact ⟨rfl, rfl, rfl, rfl, rfl⟩
  | nodeValues names startS endS n lim =>
      simp only [dispatchQueued, reqDataPoints, requestLoggedNodesNow, timeRequest,
        updateTimeDiff, requestTime, getRequestId, settleIfStored]
      split_ifs <;> simp

lemma flushQueued_preserves (now : ℚ) (l : List (Int × QueuedRequest)) :
    ∀ (acc : ClientState × List Frame × List (Int × Outcome)),
      (flushQueued now l acc).1.timeDiff = acc.1.timeDiff ∧
      (flushQueued now l acc).1.roundTripTimes = acc.1.roundTripTimes ∧
      (flushQueued now l acc).1.enableTimeSync = acc.1.enableTimeSync ∧
      (flushQueued now l acc).1.timeReceived = acc.1.timeReceived ∧
      (flushQueued now l acc).1.haveSentQueuedReq = acc.1.haveSentQueuedReq := by
  induction l with
  | nil => intro acc; exact ⟨rfl, rfl, rfl, rfl, rfl⟩
  | cons p rest ih =>
      intro acc
      have hstep := dispatchQueued_preserves acc.1 now p.1 p.2
      have hrec := ih ((dispatchQueued acc.1 now p.1 p.2).1,
        acc.2.1 ++ (dispatchQueued acc.1 now p.1 p.2).2.1,
        acc.2.2 ++ (dispatchQueued acc.1 now p.1 p.2).2.2)
      refine ⟨?_, ?_, ?_, ?_, ?_⟩ <;>
        simp only [flushQueued, List.foldl_cons] at hrec ⊢ <;>
        first
        | rw [hrec.1, hstep.1]
        | rw [hrec.2.1, hstep.2.1]
        | rw [hrec.2.2.1, hstep.2.2.1]
        | rw [hrec.2.2.2.1, hstep.2.2.2.1]
        | rw [hrec.2.2.2.2, hstep.2.2.2.2]

lemma sendQueuedRequests_preserves (st : ClientState) (now : ℚ) :
    (sendQueuedRequests st now).1.timeDiff = st.timeDiff ∧
    (sendQueuedRequests st now).1.roundTripTimes = st.roundTripTimes := by
  have h := flushQueued_preserves now (sortByKey st.queuedRequests) (st, [], [])
  unfold sendQueuedRequests
  exact ⟨h.1, h.2.1⟩

lemma probeResponse_step_partial (st : ClientState) (now ts sent : ℚ)
    (hsync : st.enableTimeSync = true)
    (hlen : (assocSet st.roundTripTimes (now - sent)
        (now - (ts / 1000000000 + (now - sent) / 2))).length ≠ 3) :
    (probeResponse st now ts sent).1.roundTripTimes =
      assocSet st.roundTripTimes (now - sent)
        (now - (ts / 1000000000 + (now - sent) / 2)) ∧
    (probeResponse st now ts sent).1.timeDiff = st.timeDiff ∧
    (probeResponse st now ts sent).1.enableTimeSync = true ∧
    (probeResponse st now ts sent).1.haveSentQueuedReq = st.haveSentQueuedReq := by
  unfold probeResponse setTimeDiff updateTimeDiff requestTime getRequestId
  simp [hsync, hlen]

lemma probeResponse_step_final (st : ClientState) (now ts sent : ℚ)
    (hsync : st.enableTimeSync = true)
    (hlen : (assocSet st.roundTripTimes (now - sent)
        (now - (ts / 1000000000 + (now - sent) / 2))).length = 3) :
    (probeResponse st now ts sent).1.roundTripTimes = [] ∧
    (probeResponse st now ts sent).1.timeDiff =
      (assocGet (assocSet st.roundTripTimes (now - sent)
          (now - (ts / 1000000000 + (now - sent) / 2)))
        (minKey (assocSet st.roundTripTimes (now - sent)
          (now - (ts / 1000000000 + (now - sent) / 2))))).getD 0 := by
  unfold probeResponse setTimeDiff
  simp only [hsync, Bool.not_true, Bool.false_eq_true, if_false, Option.getD_some]
  rw [if_neg (by simp [hlen])]
  by_cases hq : st.haveSentQueuedReq
  · simp [hq]
  · simp only [hq, Bool.not_false, if_true]
    constructor
    · exact (sendQueuedRequests_preserves _ now).2
    · exact (sendQueuedRequests_preserves _ now).1

/-- C1: with time sync enabled and an empty sample set, after exactly three
probe exchanges with pairwise distinct round-trip times the client adopts as
ClockOffset (`timeDiff`) the offset sample paired with the smallest round
trip, and the sample set is emptied for the next cycle. -/
theorem timeSync_picks_min_roundtrip (st : ClientState)
    (hsync : st.enableTimeSync = true) (hempty : st.roundTripTimes = [])
    (now1 ts1 sent1 now2 ts2 sent2 now3 ts3 sent3 : ℚ)
    (h12 : now1 - sent1 ≠ now2 - sent2) (h13 : now1 - sent1 ≠ now3 - sent3)
    (h23 : now2 - sent2 ≠ now3 - sent3) :
    (probeResponse (probeResponse (probeResponse st now1 ts1 sent1).1
        now2 ts2 sent2).1 now3 ts3 sent3).1.roundTripTimes = [] ∧
    (now1 - sent1 < now2 - sent2 → now1 - sent1 < now3 - sent3 →
      (probeResponse (probeResponse (probeResponse st now1 ts1 sent1).1
          now2 ts2 sent2).1 now3 ts3 sent3).1.timeDiff =
        now1 - (ts1 / 1000000000 + (now1 - sent1) / 2)) ∧
    (now2 - sent2 < now1 - sent1 → now2 - sent2 < now3 - sent3 →
      (probeResponse (probeResponse (probeResponse st now1 ts1 sent1).1
          now2 ts2 sent2).1 now3 ts3 sent3).1.timeDiff =
        now2 - (ts2 / 1000000000 + (now2 - sent2) / 2)) ∧
    (now3 - sent3 < now1 - sent1 → now3 - sent3 < now2 - sent2 →
      (probeResponse (probeResponse (probeResponse st now1 ts1 sent1).1
          now2 ts2 sent2).1 now3 ts3 sent3).1.timeDiff =
        now3 - (ts3 / 1000000000 + (now3 - sent3) / 2)) := by
  set rt1 := now1 - sent1 with hrt1
  set rt2 := now2 - sent2 with hrt2
  set rt3 := now3 - sent3 with hrt3
  set off1 := now1 - (ts1 / 1000000000 + rt1 / 2) with hoff1
  set off2 := now2 - (ts2 / 1000000000 + rt2 / 2) with hoff2
  set off3 := now3 - (ts3 / 1000000000 + rt3 / 2) with hoff3
  have s1p := probeResponse_step_partial st now1 ts1 sent1 hsync
    (by rw [hempty]; simp [assocSet])
  rw [hempty] at s1p
  have hset1 : assocSet ([] : List (ℚ × ℚ)) rt1 off1 = [(rt1, off1)] := by
    simp [assocSet]
  rw [hset1] at s1p
  have s2p := probeResponse_step_partial (probeResponse st now1 ts1 sent1).1
    now2 ts2 sent2 s1p.2.2.1 (by rw [s1p.1]; simp [assocSet, h12])
  rw [s1p.1] at s2p
  have hset2 : assocSet [(rt1, off1)] rt2 off2 = [(rt1, off1), (rt2, off2)] := by
    simp [assocSet, h12]
  rw [hset2] at s2p
  rw [s1p.2.1] at s2p
  have hset3 : assocSet [(rt1, off1), (rt2, off2)] rt3 off3 =
      [(rt1, off1), (rt2, off2), (rt3, off3)] := by
    simp [assocSet, h13, h23]
  have s3p := probeResponse_step_final
    (probeResponse (probeResponse st now1 ts1 sent1).1 now2 ts2 sent2).1
    now3 ts3 sent3 s2p.2.2.1 (by rw [s2p.1, hset3]; rfl)
  rw [s2p.1, hset3] at s3p
  have hmin : minKey [(rt1, off1), (rt2, off2), (rt3, off3)] = min (min rt1 rt2) rt3 := by
    simp [minKey]
  refine ⟨s3p.1, ?_, ?_, ?_⟩
  · intro hlt2 hlt3
    rw [s3p.2, hmin]
    have hm : min (min rt1 rt2) rt3 = rt1 := by
      rw [min_eq_left hlt2.le, min_eq_left hlt3.le]
    rw [hm]
    simp [assocGet]
  · intro hlt1 hlt3
    rw [s3p.2, hmin]
    have hm : min (min rt1 rt2) rt3 = rt2 := by
      rw [min_eq_right hlt1.le, min_eq_left hlt3.le]
    rw [hm]
    simp [assocGet, h12]
  · intro hlt1 hlt3
    rw [s3p.2, hmin]
    have hm : min (min rt1 rt2) rt3 = rt3 := by
      rcases le_total rt1 rt2 with h | h
      · rw [min_eq_left h]; exact min_eq_right hlt1.le
      · rw [min_eq_right h]; exact min_eq_right hlt3.le
    rw [hm]
    simp [assocGet, h13, h23]

/-- Witness for C1: round trips 0.30, 0.05 and 0.20 seconds; the middle probe
wins and its offset becomes the clock offset. -/
theorem timeSync_picks_min_roundtrip_witness :
    (probeResponse (probeResponse (probeResponse (initialState true 0)
        (3/10) 0 0).1 (7/20) 0 (3/10)).1 (11/20) 0 (7/20)).1.roundTripTimes = [] ∧
    (probeResponse (probeResponse (probeResponse (initialState true 0)
        (3/10) 0 0).1 (7/20) 0 (3/10)).1 (11/20) 0 (7/20)).1.timeDiff =
      (7/20 : ℚ) - (0 / 1000000000 + ((7/20 : ℚ) - 3/10) / 2) := by
  have h := timeSync_picks_min_roundtrip (initialState true 0) rfl rfl
    (3/10) 0 0 (7/20) 0 (3/10) (11/20) 0 (7/20)
    (by norm_num) (by norm_num) (by norm_num)
  exact ⟨h.1, h.2.2.1 (by norm_num) (by norm_num)⟩

/-! ### C7: the queue flush drops countEvents descriptors -/

/-- C7 (code evidence): `_sendQueuedRequests` has no branch for a queued
countEvents descriptor. Flushing a queue holding one sends no frame at all,
settles nothing, clears the queue — and leaves the request's stored promise
behind, never to be settled. -/
theorem countEvents_descriptor_dropped :
    (sendQueuedRequests { initialState true 0 with
        storedPromises := [5],
        queuedRequests := [(5, .countEvents {})] } 0).2.1 = [] ∧
    (sendQueuedRequests { initialState true 0 with
        storedPromises := [5],
        queuedRequests := [(5, .countEvents {})] } 0).2.2 = [] ∧
    (sendQueuedRequests { initialState true 0 with
        storedPromises := [5],
        queuedRequests := [(5, .countEvents {})] } 0).1.queuedRequests = [] ∧
    (sendQueuedRequests { initialState true 0 with
        storedPromises := [5],
        queuedRequests := [(5, .countEvents {})] } 0).1.storedPromises = [5] :=
  ⟨rfl, rfl, rfl, rfl⟩

/-! ### C2: queue flush timing and ordering -/

/-- C2 (counterexample): with time sync disabled, opening the connection does
not dispatch the buffered requests — `_onOpen` sends nothing and the queue
survives untouched, against "immediately on connection open when time sync is
disabled ... all buffered requests are dispatched ... and the queue is
cleared". -/
theorem open_does_not_flush_when_sync_disabled :
    (onOpen { initialState true 0 with
        enableTimeSync := false,
        queuedRequests := [(0, .apiVersion)],
        storedPromises := [0] } 7).2 = [] ∧
    (onOpen { initialState true 0 with
        enableTimeSync := false,
        queuedRequests := [(0, .apiVersion)],
        storedPromises := [0] } 7).1.queuedRequests = [(0, .apiVersion)] :=
  ⟨rfl, rfl⟩

/-- The correlation id a frame carries. -/
def frameRequestId : Frame → Int
  | .timeRequest rid => rid
  | .signalInfoRequest rid => rid
  | .criterionLimitsRequest rid => rid
  | .signalDataRequest rid _ _ _ _ _ => rid
  | .versionRequest rid => rid
  | .eventsRequest rid _ => rid
  | .countEventsRequest rid _ => rid
  | .eventSenderTagsRequest rid _ => rid

/-- The message kind of an outgoing frame. -/
inductive FrameKind : Type
  | time | signalInfo | criterionLimits | signalData | version | events
  | countEvents | senderTags
deriving DecidableEq

def frameKind : Frame → FrameKind
  | .timeRequest _ => .time
  | .signalInfoRequest _ => .signalInfo
  | .criterionLimitsRequest _ => .criterionLimits
  | .signalDataRequest _ _ _ _ _ _ => .signalData
  | .versionRequest _ => .version
  | .eventsRequest _ _ => .events
  | .countEventsRequest _ _ => .countEvents
  | .eventSenderTagsRequest _ _ => .senderTags

/-- The frame kind a queued descriptor's own send routine produces. -/
def ownSendKind : QueuedRequest → FrameKind
  | .apiVersion => .version
  | .loggedNodes => .signalInfo
  | .logLimits => .criterionLimits
  | .nodeValues _ _ _ _ _ => .signalData
  | .events _ => .events
  | .countEvents _ => .countEvents

/-- A queued descriptor whose dispatch is one immediate frame: not a
countEvents descriptor (dropped — C7), and a data-points descriptor with a
valid range whose names all resolve in the current directory. -/
def immediateDispatch (st : ClientState) : QueuedRequest → Prop
  | .countEvents _ => False
  | .nodeValues names startS endS _ _ =>
      ¬(endS < startS) ∧ names.all (fun n => (assocGet st.nameToId n).isSome) = true
  | _ => True

lemma dispatchQueued_immediate (st : ClientState) (now : ℚ) (rid : Int) (q : QueuedRequest)
    (hq : immediateDispatch st q) :
    (dispatchQueued st now rid q).1 = st ∧
    (dispatchQueued st now rid q).2.2 = [] ∧
    ∃ f, (dispatchQueued st now rid q).2.1 = [f] ∧
      frameRequestId f = rid ∧ frameKind f = ownSendKind q := by
  cases q with
  | apiVersion => exact ⟨rfl, rfl, _, rfl, rfl, rfl⟩
  | loggedNodes => exact ⟨rfl, rfl, _, rfl, rfl, rfl⟩
  | logLimits => exact ⟨rfl, rfl, _, rfl, rfl, rfl⟩
  | events query => exact ⟨rfl, rfl, _, rfl, rfl, rfl⟩
  | countEvents query => exact absurd hq (by simp [immediateDispatch])
  | nodeValues names startS endS n lim =>
      obtain ⟨h1, h2⟩ := hq
      refine ⟨?_, ?_, sendDataPointsRequest st
        (names.map (fun n => (assocGet st.nameToId n).getD 0)) startS endS rid n lim,
        ?_, rfl, rfl⟩ <;>
        simp [dispatchQueued, reqDataPoints, h1, h2]

lemma flushQueued_immediate (now : ℚ) :
    ∀ (l : List (Int × QueuedRequest)) (st : ClientState) (fs : List Frame)
      (outs : List (Int × Outcome)),
      (∀ p ∈ l, immediateDispatch st p.2) →
      (flushQueued now l (st, fs, outs)).1 = st ∧
      (flushQueued now l (st, fs, outs)).2.2 = outs ∧
      ∃ fl, (flushQueued now l (st, fs, outs)).2.1 = fs ++ fl ∧
        List.Forall₂ (fun (p : Int × QueuedRequest) (f : Frame) =>
          frameRequestId f = p.1 ∧ frameKind f = ownSendKind p.2) l fl := by
  intro l
  induction l with
  | nil => intro st fs outs _; exact ⟨rfl, rfl, [], by simp [flushQueued], List.Forall₂.nil⟩
  | cons p rest ih =>
      intro st fs outs hgood
      obtain ⟨hst, houts, f, hfs, hfid, hfk⟩ :=
        dispatchQueued_immediate st now p.1 p.2 (hgood p (List.mem_cons_self _ _))
      have hrec := ih st (fs ++ [f]) outs
        (fun q hq => hgood q (List.mem_cons_of_mem _ hq))
      have hstep : flushQueued now (p :: rest) (st, fs, outs) =
          flushQueued now rest ((dispatchQueued st now p.1 p.2).1,
            fs ++ (dispatchQueued st now p.1 p.2).2.1,
            outs ++ (dispatchQueued st now p.1 p.2).2.2) := rfl
      rw [hstep, hst, hfs, houts]
      simp only [List.append_nil]
      obtain ⟨h1, h2, fl, h3, h4⟩ := hrec
      refine ⟨h1, h2, f :: fl, ?_, List.Forall₂.cons ⟨hfid, hfk⟩ h4⟩
      rw [h3]
      simp

lemma insertByKey_of_le (p : Int × QueuedRequest) :
    ∀ l : List (Int × QueuedRequest), (∀ q ∈ l, p.1 ≤ q.1) → insertByKey p l = p :: l := by
  intro l h
  cases l with
  | nil => rfl
  | cons q rest => simp [insertByKey, h q (List.mem_cons_self _ _)]

lemma sortByKey_of_sorted :
    ∀ l : List (Int × QueuedRequest),
      l.Pairwise (fun a b => a.1 < b.1) → sortByKey l = l := by
  intro l
  induction l with
  | nil => intro _; rfl
  | cons p rest ih =>
      intro h
      rw [sortByKey, ih (List.pairwise_cons.mp h).2]
      exact insertByKey_of_le p rest (fun q hq => ((List.pairwise_cons.mp h).1 q hq).le)

/-- Characterization of the third-probe step with the first-cycle flush. -/
lemma probeResponse_step_flush (st : ClientState) (now ts sent : ℚ)
    (hsync : st.enableTimeSync = true) (hqf : st.haveSentQueuedReq = false)
    (hlen : (assocSet st.roundTripTimes (now - sent)
        (now - (ts / 1000000000 + (now - sent) / 2))).length = 3) :
    probeResponse st now ts sent =
      ({ (flushQueued now (sortByKey st.queuedRequests)
            ({ st with timeReceived := some now,
                       timeDiff := (assocGet (assocSet st.roundTripTimes (now - sent)
                           (now - (ts / 1000000000 + (now - sent) / 2)))
                         (minKey (assocSet st.roundTripTimes (now - sent)
                           (now - (ts / 1000000000 + (now - sent) / 2))))).getD 0,
                       roundTripTimes := [] }, [], [])).1
          with queuedRequests := [], haveSentQueuedReq := true },
       (flushQueued now (sortByKey st.queuedRequests)
          ({ st with timeReceived := some now,
                     timeDiff := (assocGet (assocSet st.roundTripTimes (now - sent)
                         (now - (ts / 1000000000 + (now - sent) / 2)))
                       (minKey (assocSet st.roundTripTimes (now - sent)
                         (now - (ts / 1000000000 + (now - sent) / 2))))).getD 0,
                     roundTripTimes := [] }, [], [])).2.1,
       (flushQueued now (sortByKey st.queuedRequests)
          ({ st with timeReceived := some now,
                     timeDiff := (assocGet (assocSet st.roundTripTimes (now - sent)
                         (now - (ts / 1000000000 + (now - sent) / 2)))
                       (minKey (assocSet st.roundTripTimes (now - sent)
                         (now - (ts / 1000000000 + (now - sent) / 2))))).getD 0,
                     roundTripTimes := [] }, [], [])).2.2) := by
  unfold probeResponse setTimeDiff sendQueuedRequests
  simp only [hsync, Bool.not_true, Bool.false_eq_true, if_false, Option.getD_some]
  rw [if_neg (by simp [hlen])]
  simp only [hqf, Bool.not_false, if_true]

/-- C2 (amended): requests buffered while the connection is not open are all
dispatched — in ascending request-id order, each via its own send routine —
when the third probe of the first time-sync cycle completes, and the queue is
then cleared. (Per the counterexample, no flush happens on open when time
sync is disabled; per C7 this holds for the descriptor kinds the flush
handles, which excludes countEvents.) -/
theorem queued_requests_flushed_in_order (st : ClientState) (now ts sent : ℚ)
    (hsync : st.enableTimeSync = true) (hq : st.haveSentQueuedReq = false)
    (hsorted : st.queuedRequests.Pairwise (fun a b => a.1 < b.1))
    (hgood : ∀ p ∈ st.queuedRequests, immediateDispatch st p.2)
    (hlen : (assocSet st.roundTripTimes (now - sent)
        (now - (ts / 1000000000 + (now - sent) / 2))).length = 3) :
    (probeResponse st now ts sent).1.queuedRequests = [] ∧
    (probeResponse st now ts sent).1.haveSentQueuedReq = true ∧
    List.Forall₂ (fun (p : Int × QueuedRequest) (f : Frame) =>
        frameRequestId f = p.1 ∧ frameKind f = ownSendKind p.2)
      st.queuedRequests (probeResponse st now ts sent).2.1 := by
  have heq := probeResponse_step_flush st now ts sent hsync hq hlen
  rw [sortByKey_of_sorted _ hsorted] at heq
  have hflush := flushQueued_immediate now st.queuedRequests
    { st with timeReceived := some now,
              timeDiff := (assocGet (assocSet st.roundTripTimes (now - sent)
                  (now - (ts / 1000000000 + (now - sent) / 2)))
                (minKey (assocSet st.roundTripTimes (now - sent)
                  (now - (ts / 1000000000 + (now - sent) / 2))))).getD 0,
              roundTripTimes := [] } [] []
    (by intro p hp
        have hg := hgood p hp
        cases hpat : p.2 with
        | countEvents q => rw [hpat] at hg; exact absurd hg (by simp [immediateDispatch])
        | nodeValues names a b c d =>
            rw [hpat] at hg
            exact hg
        | apiVersion => simp [immediateDispatch]
        | loggedNodes => simp [immediateDispatch]
        | logLimits => simp [immediateDispatch]
        | events q => simp [immediateDispatch])
  obtain ⟨h1, h2, fl, h3, h4⟩ := hflush
  rw [heq]
  refine ⟨rfl, rfl, ?_⟩
  simp only [h3]
  simpa using h4

/-- Witness for C2 at a two-request queue completed by a third probe. -/
theorem queued_requests_flushed_in_order_witness :
    (probeResponse { initialState true 0 with
        roundTripTimes := [(1, 5), (2, 6)],
        queuedRequests := [(0, .apiVersion), (1, .loggedNodes)],
        storedPromises := [0, 1] } 4 0 1).1.queuedRequests = [] ∧
    (probeResponse { initialState true 0 with
        roundTripTimes := [(1, 5), (2, 6)],
        queuedRequests := [(0, .apiVersion), (1, .loggedNodes)],
        storedPromises := [0, 1] } 4 0 1).1.haveSentQueuedReq = true ∧
    List.Forall₂ (fun (p : Int × QueuedRequest) (f : Frame) =>
        frameRequestId f = p.1 ∧ frameKind f = ownSendKind p.2)
      ({ initialState true 0 with
          roundTripTimes := [(1, 5), (2, 6)],
          queuedRequests := [(0, .apiVersion), (1, .loggedNodes)],
          storedPromises := [0, 1] } : ClientState).queuedRequests
      (probeResponse { initialState true 0 with
          roundTripTimes := [(1, 5), (2, 6)],
          queuedRequests := [(0, .apiVersion), (1, .loggedNodes)],
          storedPromises := [0, 1] } 4 0 1).2.1 := by
  exact queued_requests_flushed_in_order
    { initialState true 0 with
        roundTripTimes := [(1, 5), (2, 6)],
        queuedRequests := [(0, .apiVersion), (1, .loggedNodes)],
        storedPromises := [0, 1] } 4 0 1
    rfl rfl
    (by simp)
    (by intro p hp
        simp only [List.mem_cons, List.not_mem_nil, or_false] at hp
        rcases hp with rfl | rfl <;> simp [immediateDispatch])
    (by norm_num [assocSet])

/-! ### C8: name resolution with one directory refresh -/

/-- C8: a data-points request naming a node absent from the directory issues
exactly one directory-refresh request; if a name is still absent after the
directory is replaced, the request rejects with an error message containing
the missing node name as a substring. -/
theorem missing_node_refresh_and_error (dir refreshedDir : List (String × Int))
    (names : List String)
    (hmiss : ¬ (names.all (fun n => (assocGet dir n).isSome) = true))
    (n0 : String)
    (hfind : names.find? (fun n => (assocGet refreshedDir n).isNone) = some n0) :
    (requestNodeIds dir refreshedDir names).1 = 1 ∧
    ∃ msg, (requestNodeIds dir refreshedDir names).2 = .error msg ∧
      ∃ pre post, msg = pre ++ n0 ++ post := by
  unfold requestNodeIds
  rw [if_neg hmiss]
  refine ⟨rfl, "Node with name " ++ n0 ++ " does not exist.", ?_,
    "Node with name ", " does not exist.", rfl⟩
  unfold parseIds
  rw [hfind]

/-- Witness for C8: requesting the unlogged node B with an empty directory;
the refresh installs only node A. -/
theorem missing_node_refresh_and_error_witness :
    ¬ ((["B"].all (fun n => (assocGet ([] : List (String × Int)) n).isSome)) = true) ∧
    (["B"].find? (fun n => (assocGet [("A", (1 : Int))] n).isNone) = some "B") ∧
    (requestNodeIds [] [("A", 1)] ["B"]).1 = 1 ∧
    ∃ msg, (requestNodeIds [] [("A", 1)] ["B"]).2 = .error msg ∧
      ∃ pre post, msg = pre ++ "B" ++ post := by
  have h := missing_node_refresh_and_error [] [("A", 1)] ["B"]
    (by simp [assocGet]) "B" (by simp [assocGet])
  exact ⟨by simp [assocGet], by simp [assocGet], h.1, h.2⟩

/-! ### C9: malformed event queries fail before anything is sent -/

lemma timeRequest_frames (st : ClientState) (now : ℚ) :
    ∀ f ∈ (timeRequest st now).2, frameKind f = .time := by
  unfold timeRequest updateTimeDiff requestTime getRequestId
  split_ifs <;> simp [frameKind]

lemma timeRequest_queued (st : ClientState) (now : ℚ) :
    (timeRequest st now).1.queuedRequests = st.queuedRequests := by
  unfold timeRequest updateTimeDiff requestTime getRequestId
  split_ifs <;> rfl

lemma buildEventQuery_error (query : List (String × JsVal)) (e : String)
    (hval : validateEventQuery query = .error e) :
    buildEventQuery query = .error e := by
  simp [buildEventQuery, hval]

/-- C9: an event query that fails validation (unknown key or wrong value
shape) makes `requestEvents` and `countEvents` throw synchronously: the
operation's outcome is the validation error, every frame it emitted is a time
probe (the malformed query never reaches the wire as an event-query or
count-events frame), and nothing is queued. -/
theorem invalid_query_rejected_before_send (st : ClientState) (now : ℚ)
    (query : List (String × JsVal)) (e : String)
    (hval : validateEventQuery query = .error e) :
    ((requestEvents st now query).outcome = .error e ∧
      (∀ f ∈ (requestEvents st now query).sent, frameKind f = .time) ∧
      (requestEvents st now query).state.queuedRequests = st.queuedRequests) ∧
    ((countEvents st now query).outcome = .error e ∧
      (∀ f ∈ (countEvents st now query).sent, frameKind f = .time) ∧
      (countEvents st now query).state.queuedRequests = st.queuedRequests) := by
  have hbuild := buildEventQuery_error query e hval
  constructor
  · refine ⟨?_, ?_, ?_⟩
    · simp [requestEvents, hbuild]
    · intro f hf
      simp only [requestEvents, hbuild] at hf
      exact timeRequest_frames st now f hf
    · simp [requestEvents, hbuild, getRequestId, timeRequest_queued]
  · refine ⟨?_, ?_, ?_⟩
    · simp [countEvents, hbuild]
    · intro f hf
      simp only [countEvents, hbuild] at hf
      exact timeRequest_frames st now f hf
    · simp [countEvents, hbuild, getRequestId, timeRequest_queued]

/-- Witness for C9: a query with an unrecognized key. -/
theorem invalid_query_rejected_before_send_witness :
    validateEventQuery [("bogus", .num 1)] =
      .error "Invalid property \"bogus\" in event query. Allowed properties are: timeRangeBegin, timeRangeEnd, limit, offset, codeMask, flags, senderConditions, dataConditions." ∧
    (requestEvents (initialState true 0) 0 [("bogus", .num 1)]).outcome =
      .error "Invalid property \"bogus\" in event query. Allowed properties are: timeRangeBegin, timeRangeEnd, limit, offset, codeMask, flags, senderConditions, dataConditions." ∧
    (requestEvents (initialState true 0) 0 [("bogus", .num 1)]).state.queuedRequests = [] ∧
    (countEvents (initialState true 0) 0 [("bogus", .num 1)]).outcome =
      .error "Invalid property \"bogus\" in event query. Allowed properties are: timeRangeBegin, timeRangeEnd, limit, offset, codeMask, flags, senderConditions, dataConditions." := by
  have h := invalid_query_rejected_before_send (initialState true 0) 0
    [("bogus", .num 1)]
    "Invalid property \"bogus\" in event query. Allowed properties are: timeRangeBegin, timeRangeEnd, limit, offset, codeMask, flags, senderConditions, dataConditions."
    rfl
  exact ⟨rfl, h.1.1, h.1.2.2, h.2.1⟩

/-! ### C3: sender-tag lookups for an event batch -/

/-- The sender a tag-lookup frame targets (`none` for any other frame). -/
def frameSender : Frame → Option String
  | .eventSenderTagsRequest _ s => some s
  | _ => none

lemma assocGet_assocSet_self {κ β : Type} [DecidableEq κ] :
    ∀ (m : List (κ × β)) (k : κ) (v : β), assocGet (assocSet m k v) k = some v := by
  intro m k v
  induction m with
  | nil => simp [assocSet, assocGet]
  | cons q rest ih =>
      by_cases h : q.1 = k
      · simp [assocSet, assocGet, h]
      · rcases q with ⟨qk, qv⟩
        simp only at h
        simp [assocSet, assocGet, h, ih]

lemma assocGet_assocSet_ne {κ β : Type} [DecidableEq κ] :
    ∀ (m : List (κ × β)) (k k' : κ) (v : β), k ≠ k' →
      assocGet (assocSet m k v) k' = assocGet m k' := by
  intro m k k' v hk
  induction m with
  | nil => simp [assocSet, assocGet, hk]
  | cons q rest ih =>
      by_cases h : q.1 = k
      · simp [assocSet, assocGet, h, hk]
      · rcases q with ⟨qk, qv⟩
        simp only at h
        by_cases h' : qk = k'
        · subst h'
          simp [assocSet, assocGet, h]
        · simp [assocSet, assocGet, h, h', ih]

lemma assocSet_assocSet {κ β : Type} [DecidableEq κ] :
    ∀ (m : List (κ × β)) (k : κ) (v w : β), assocSet (assocSet m k v) k w = assocSet m k w := by
  intro m k v w
  induction m with
  | nil => simp [assocSet]
  | cons q rest ih =>
      by_cases h : q.1 = k
      · simp [assocSet, h]
      · rcases q with ⟨qk, qv⟩
        simp only at h
        simp [assocSet, h, ih]

lemma settleIfStored_fields (st : ClientState) (rid : Int) (out : Outcome) :
    (settleIfStored st rid out).1.senderTags = st.senderTags ∧
    (settleIfStored st rid out).1.pendingSenderTags = st.pendingSenderTags ∧
    (settleIfStored st rid out).1.reqId = st.reqId := by
  unfold settleIfStored
  split_ifs <;> exact ⟨rfl, rfl, rfl⟩

lemma enrichEvents_sent_senders (events : List Event) :
    ∀ (acc : ClientState × List Frame × List Event), acc.1.senderTags = [] →
      (enrichEvents events acc).2.1.map frameSender =
        acc.2.1.map frameSender ++ events.map (fun e => some e.sender) := by
  induction events with
  | nil => intro acc _; simp [enrichEvents_nil]
  | cons e rest ih =>
      intro acc hc
      rw [enrichEvents_cons]
      have hnone : assocGet acc.1.senderTags e.sender = none := by
        rw [hc]; rfl
      simp only [hnone]
      rw [ih _ (by simp [sendEventSenderTagsRequest, getRequestId, hc])]
      simp [sendEventSenderTagsRequest, frameSender]

lemma parseMessage_events_parts (st : ClientState) (now : ℚ) (rid : Int) (evts : List Event) :
    (parseMessage st now (.eventsResponse rid evts)).sent =
      (enrichEvents evts (st, [], [])).2.1 ∧
    (parseMessage st now (.eventsResponse rid evts)).state.senderTags = st.senderTags ∧
    (parseMessage st now (.eventsResponse rid evts)).state.pendingSenderTags =
      st.pendingSenderTags := by
  have he := enrichEvents_state_fields evts (st, [], [])
  have hf := settleIfStored_fields (enrichEvents evts (st, [], [])).1 rid
    (.resolved (.events (enrichEvents evts (st, [], [])).2.2))
  exact ⟨rfl, hf.1.trans he.2.1, hf.2.1.trans he.2.2.1⟩

lemma getSenderTags_fresh (st : ClientState) (sender : String) (tok : Nat)
    (hc : assocGet st.senderTags sender = none)
    (hp : assocGet st.pendingSenderTags sender = none) :
    getSenderTags st sender tok =
      ({ st with reqId := st.reqId + 1,
                 pendingSenderTags := assocSet st.pendingSenderTags sender [tok] },
       [.eventSenderTagsRequest (st.reqId + 1) sender], none) := by
  simp only [getSenderTags, hc, hp, Option.isNone_none, if_true,
    sendEventSenderTagsRequest, getRequestId, assocGet_assocSet_self, Option.getD_some,
    List.nil_append]
  rw [assocSet_assocSet]

lemma getSenderTags_shared (st : ClientState) (sender : String) (tok : Nat)
    (hc : assocGet st.senderTags sender = none)
    (w : List Nat) (hp : assocGet st.pendingSenderTags sender = some w) :
    getSenderTags st sender tok =
      ({ st with pendingSenderTags := assocSet st.pendingSenderTags sender (w ++ [tok]) },
       [], none) := by
  simp [getSenderTags, hc, hp]

lemma getSenderTagsAll_pair (s : ClientState) (a b : String) (hab : a ≠ b) (t0 : Nat)
    (hca : assocGet s.senderTags a = none) (hcb : assocGet s.senderTags b = none)
    (hpa : assocGet s.pendingSenderTags a = none)
    (hpb : assocGet s.pendingSenderTags b = none) :
    (getSenderTagsAll s [a, b] t0).2.map frameSender = [some a, some b] ∧
    (getSenderTagsAll s [a, b] t0).1.senderTags = s.senderTags ∧
    assocGet (getSenderTagsAll s [a, b] t0).1.pendingSenderTags a = some [t0] ∧
    assocGet (getSenderTagsAll s [a, b] t0).1.pendingSenderTags b = some [t0 + 1] := by
  unfold getSenderTagsAll
  simp only [List.foldl_cons, List.foldl_nil]
  rw [getSenderTags_fresh s a t0 hca hpa]
  simp only
  have h2 := getSenderTags_fresh
    { s with reqId := s.reqId + 1,
             pendingSenderTags := assocSet s.pendingSenderTags a [t0] } b (t0 + 1)
    (by simpa using hcb)
    (by show assocGet (assocSet s.pendingSenderTags a [t0]) b = none
        rw [assocGet_assocSet_ne _ _ _ _ hab]
        exact hpb)
  rw [h2]
  refine ⟨by simp [frameSender], rfl, ?_, ?_⟩
  · show assocGet (assocSet (assocSet s.pendingSenderTags a [t0]) b [t0 + 1]) a = some [t0]
    rw [assocGet_assocSet_ne _ _ _ _ (Ne.symm hab)]
    exact assocGet_assocSet_self _ _ _
  · show assocGet (assocSet (assocSet s.pendingSenderTags a [t0]) b [t0 + 1]) b = some [t0 + 1]
    exact assocGet_assocSet_self _ _ _

lemma eventsContinuation_none_of_missing (s : ClientState) (evts : List Event)
    (missing : List String) (x : String) (hx : x ∈ missing)
    (hc : assocGet s.senderTags x = none) :
    eventsContinuation s evts missing = none := by
  unfold eventsContinuation
  rw [if_neg]
  intro hall
  have hx' := List.all_eq_true.mp hall x hx
  rw [hc] at hx'
  simp at hx'

lemma applySenderTags_senderTags (mapping : List (String × RawTagMap)) :
    ∀ (acc : ClientState × List (Nat × TagMap)),
      (applySenderTags mapping acc).1.senderTags =
        mapping.foldl (fun m p => assocSet m p.1 (convertTagMap (some p.2))) acc.1.senderTags := by
  induction mapping with
  | nil => intro acc; rfl
  | cons p rest ih =>
      intro acc
      have hstep : applySenderTags (p :: rest) acc =
          applySenderTags rest
            (match assocGet acc.1.pendingSenderTags p.1 with
             | some waiters =>
                ({ acc.1 with
                    senderTags := assocSet acc.1.senderTags p.1 (convertTagMap (some p.2)),
                    pendingSenderTags := assocDelete acc.1.pendingSenderTags p.1 },
                 acc.2 ++ waiters.map (fun w => (w, convertTagMap (some p.2))))
             | none =>
                ({ acc.1 with
                    senderTags := assocSet acc.1.senderTags p.1 (convertTagMap (some p.2)) },
                 acc.2)) := by
        cases h : assocGet acc.1.pendingSenderTags p.1 <;>
          simp [applySenderTags, h]
      rw [hstep]
      cases h : assocGet acc.1.pendingSenderTags p.1 <;>
        simp only [h] <;> rw [ih] <;> simp

/-- C3 (counterexample): an events response holding 4 events from the two
uncached senders A,A,B,B triggers 4 sender-tag lookups at parse time (one per
event occurrence) plus 2 more from the enrichment phase — 6 lookup requests
in total, not 2 as claimed. -/
theorem sender_tag_lookups_not_two :
    ((parseMessage { initialState true 0 with isOpen := true, storedPromises := [7], reqId := 7 } 0 (.eventsResponse 7 (([⟨"A", 0, none, none⟩, ⟨"A", 0, none, none⟩, ⟨"B", 0, none, none⟩, ⟨"B", 0, none, none⟩]) : List Event))).sent.length + (getSenderTagsAll (parseMessage { initialState true 0 with isOpen := true, storedPromises := [7], reqId := 7 } 0 (.eventsResponse 7 (([⟨"A", 0, none, none⟩, ⟨"A", 0, none, none⟩, ⟨"B", 0, none, none⟩, ⟨"B", 0, none, none⟩]) : List Event))).state (missingSenders (parseMessage { initialState true 0 with isOpen := true, storedPromises := [7], reqId := 7 } 0 (.eventsResponse 7 (([⟨"A", 0, none, none⟩, ⟨"A", 0, none, none⟩, ⟨"B", 0, none, none⟩, ⟨"B", 0, none, none⟩]) : List Event))).state (([⟨"A", 0, none, none⟩, ⟨"A", 0, none, none⟩, ⟨"B", 0, none, none⟩, ⟨"B", 0, none, none⟩]) : List Event)) 0).2.length) = 6 ∧
    ¬ (((parseMessage { initialState true 0 with isOpen := true, storedPromises := [7], reqId := 7 } 0 (.eventsResponse 7 (([⟨"A", 0, none, none⟩, ⟨"A", 0, none, none⟩, ⟨"B", 0, none, none⟩, ⟨"B", 0, none, none⟩]) : List Event))).sent.length + (getSenderTagsAll (parseMessage { initialState true 0 with isOpen := true, storedPromises := [7], reqId := 7 } 0 (.eventsResponse 7 (([⟨"A", 0, none, none⟩, ⟨"A", 0, none, none⟩, ⟨"B", 0, none, none⟩, ⟨"B", 0, none, none⟩]) : List Event))).state (missingSenders (parseMessage { initialState true 0 with isOpen := true, storedPromises := [7], reqId := 7 } 0 (.eventsResponse 7 (([⟨"A", 0, none, none⟩, ⟨"A", 0, none, none⟩, ⟨"B", 0, none, none⟩, ⟨"B", 0, none, none⟩]) : List Event))).state (([⟨"A", 0, none, none⟩, ⟨"A", 0, none, none⟩, ⟨"B", 0, none, none⟩, ⟨"B", 0, none, none⟩]) : List Event)) 0).2.length) = 2) := by
  exact ⟨rfl, by decide⟩

lemma parseMessage_senderTags_eq (st : ClientState) (now : ℚ)
    (mapping : List (String × RawTagMap)) :
    parseMessage st now (.eventSenderTagsResponse mapping) =
      ⟨(applySenderTags mapping (st, [])).1, [], (applySenderTags mapping (st, [])).2, []⟩ := rfl

set_option maxHeartbeats 1000000 in
/-- C3 (amended): for an events response with 4 events from 2 distinct senders
absent from the tag cache, the parse step sends one tag lookup per event
occurrence (4, because these lookups do not register in the pending-tag map),
and the enrichment phase sends one per distinct missing sender (2) — so 6
lookups in this scenario, not 2; a further concurrent `getSenderTags` call for
a sender already pending joins the in-flight lookup and sends nothing; and the
event-query continuation stays unresolved until tags for both senders have
arrived, resolving once they have. -/
theorem sender_tag_lookup_flow (a b : String) (hab : a ≠ b) (st : ClientState)
    (hcache : st.senderTags = []) (hpend : st.pendingSenderTags = [])
    (now : ℚ) (rid : Int) (t0 tExtra : Nat) (rawA rawB : RawTagMap) :
    (parseMessage st now (.eventsResponse rid [⟨a, 0, none, none⟩, ⟨a, 0, none, none⟩, ⟨b, 0, none, none⟩, ⟨b, 0, none, none⟩])).sent.map frameSender = [some a, some a, some b, some b] ∧
    missingSenders (parseMessage st now (.eventsResponse rid [⟨a, 0, none, none⟩, ⟨a, 0, none, none⟩, ⟨b, 0, none, none⟩, ⟨b, 0, none, none⟩])).state ([⟨a, 0, none, none⟩, ⟨a, 0, none, none⟩, ⟨b, 0, none, none⟩, ⟨b, 0, none, none⟩] : List Event) = [a, b] ∧
    (getSenderTagsAll (parseMessage st now (.eventsResponse rid [⟨a, 0, none, none⟩, ⟨a, 0, none, none⟩, ⟨b, 0, none, none⟩, ⟨b, 0, none, none⟩])).state [a, b] t0).2.map frameSender = [some a, some b] ∧
    (getSenderTags (getSenderTagsAll (parseMessage st now (.eventsResponse rid [⟨a, 0, none, none⟩, ⟨a, 0, none, none⟩, ⟨b, 0, none, none⟩, ⟨b, 0, none, none⟩])).state [a, b] t0).1 a tExtra).2.1 = [] ∧
    eventsContinuation (getSenderTagsAll (parseMessage st now (.eventsResponse rid [⟨a, 0, none, none⟩, ⟨a, 0, none, none⟩, ⟨b, 0, none, none⟩, ⟨b, 0, none, none⟩])).state [a, b] t0).1 ([⟨a, 0, none, none⟩, ⟨a, 0, none, none⟩, ⟨b, 0, none, none⟩, ⟨b, 0, none, none⟩] : List Event) [a, b] = none ∧
    eventsContinuation
      (parseMessage (getSenderTagsAll (parseMessage st now (.eventsResponse rid [⟨a, 0, none, none⟩, ⟨a, 0, none, none⟩, ⟨b, 0, none, none⟩, ⟨b, 0, none, none⟩])).state [a, b] t0).1 now (.eventSenderTagsResponse [(a, rawA)])).state
      ([⟨a, 0, none, none⟩, ⟨a, 0, none, none⟩, ⟨b, 0, none, none⟩, ⟨b, 0, none, none⟩] : List Event) [a, b] = none ∧
    (eventsContinuation
      (parseMessage (getSenderTagsAll (parseMessage st now (.eventsResponse rid [⟨a, 0, none, none⟩, ⟨a, 0, none, none⟩, ⟨b, 0, none, none⟩, ⟨b, 0, none, none⟩])).state [a, b] t0).1 now (.eventSenderTagsResponse [(a, rawA), (b, rawB)])).state
      ([⟨a, 0, none, none⟩, ⟨a, 0, none, none⟩, ⟨b, 0, none, none⟩, ⟨b, 0, none, none⟩] : List Event) [a, b]).isSome = true := by
  obtain ⟨hsent, hstags, hptags⟩ := parseMessage_events_parts st now rid ([⟨a, 0, none, none⟩, ⟨a, 0, none, none⟩, ⟨b, 0, none, none⟩, ⟨b, 0, none, none⟩] : List Event)
  rw [hcache] at hstags
  rw [hpend] at hptags
  have hga := getSenderTagsAll_pair (parseMessage st now (.eventsResponse rid [⟨a, 0, none, none⟩, ⟨a, 0, none, none⟩, ⟨b, 0, none, none⟩, ⟨b, 0, none, none⟩])).state a b hab t0
    (by simp [hstags, assocGet]) (by simp [hstags, assocGet])
    (by simp [hptags, assocGet]) (by simp [hptags, assocGet])
  refine ⟨?_, ?_, hga.1, ?_, ?_, ?_, ?_⟩
  · rw [hsent, enrichEvents_sent_senders _ _ (by simp [hcache])]
    simp
  · unfold missingSenders
    rw [hstags]
    simp [jsSetDedup, jsSetDedupAux, assocGet, hab, Ne.symm hab]
  · have hs := getSenderTags_shared _ a tExtra
      (by simp [hga.2.1, hstags, assocGet]) [t0] hga.2.2.1
    rw [hs]
  · exact eventsContinuation_none_of_missing _ _ _ a (by simp)
      (by simp [hga.2.1, hstags, assocGet])
  · refine eventsContinuation_none_of_missing _ _ _ b (by simp) ?_
    have hresp := applySenderTags_senderTags [(a, rawA)] ((getSenderTagsAll (parseMessage st now (.eventsResponse rid [⟨a, 0, none, none⟩, ⟨a, 0, none, none⟩, ⟨b, 0, none, none⟩, ⟨b, 0, none, none⟩])).state [a, b] t0).1, [])
    simp only [List.foldl_cons, List.foldl_nil] at hresp
    simp only [parseMessage_senderTags_eq]
    rw [hresp, assocGet_assocSet_ne _ _ _ _ hab, hga.2.1, hstags]
    rfl
  · have hresp := applySenderTags_senderTags [(a, rawA), (b, rawB)] ((getSenderTagsAll (parseMessage st now (.eventsResponse rid [⟨a, 0, none, none⟩, ⟨a, 0, none, none⟩, ⟨b, 0, none, none⟩, ⟨b, 0, none, none⟩])).state [a, b] t0).1, [])
    simp only [List.foldl_cons, List.foldl_nil] at hresp
    simp only [parseMessage_senderTags_eq]
    unfold eventsContinuation
    rw [if_pos]
    · rfl
    · rw [List.all_eq_true]
      intro x hx
      simp only [List.mem_cons, List.not_mem_nil, or_false] at hx
      rcases hx with rfl | rfl
      · rw [hresp, assocGet_assocSet_ne _ _ _ _ (Ne.symm hab), assocGet_assocSet_self]
        rfl
      · rw [hresp, assocGet_assocSet_self]
        rfl

/-- Witness for C3 at senders A and B and a fresh client. -/
theorem sender_tag_lookup_flow_witness :
    (parseMessage { initialState true 0 with isOpen := true, storedPromises := [7], reqId := 7 } 0 (.eventsResponse 7 (([⟨"A", 0, none, none⟩, ⟨"A", 0, none, none⟩, ⟨"B", 0, none, none⟩, ⟨"B", 0, none, none⟩]) : List Event))).sent.map frameSender = [some "A", some "A", some "B", some "B"] ∧
    missingSenders (parseMessage { initialState true 0 with isOpen := true, storedPromises := [7], reqId := 7 } 0 (.eventsResponse 7 (([⟨"A", 0, none, none⟩, ⟨"A", 0, none, none⟩, ⟨"B", 0, none, none⟩, ⟨"B", 0, none, none⟩]) : List Event))).state (([⟨"A", 0, none, none⟩, ⟨"A", 0, none, none⟩, ⟨"B", 0, none, none⟩, ⟨"B", 0, none, none⟩]) : List Event) = ["A", "B"] ∧
    (getSenderTagsAll (parseMessage { initialState true 0 with isOpen := true, storedPromises := [7], reqId := 7 } 0 (.eventsResponse 7 (([⟨"A", 0, none, none⟩, ⟨"A", 0, none, none⟩, ⟨"B", 0, none, none⟩, ⟨"B", 0, none, none⟩]) : List Event))).state ["A", "B"] 0).2.map frameSender = [some "A", some "B"] ∧
    (getSenderTags (getSenderTagsAll (parseMessage { initialState true 0 with isOpen := true, storedPromises := [7], reqId := 7 } 0 (.eventsResponse 7 (([⟨"A", 0, none, none⟩, ⟨"A", 0, none, none⟩, ⟨"B", 0, none, none⟩, ⟨"B", 0, none, none⟩]) : List Event))).state ["A", "B"] 0).1 "A" 9).2.1 = [] ∧
    eventsContinuation (getSenderTagsAll (parseMessage { initialState true 0 with isOpen := true, storedPromises := [7], reqId := 7 } 0 (.eventsResponse 7 (([⟨"A", 0, none, none⟩, ⟨"A", 0, none, none⟩, ⟨"B", 0, none, none⟩, ⟨"B", 0, none, none⟩]) : List Event))).state ["A", "B"] 0).1 (([⟨"A", 0, none, none⟩, ⟨"A", 0, none, none⟩, ⟨"B", 0, none, none⟩, ⟨"B", 0, none, none⟩]) : List Event) ["A", "B"] = none ∧
    eventsContinuation
      (parseMessage (getSenderTagsAll (parseMessage { initialState true 0 with isOpen := true, storedPromises := [7], reqId := 7 } 0 (.eventsResponse 7 (([⟨"A", 0, none, none⟩, ⟨"A", 0, none, none⟩, ⟨"B", 0, none, none⟩, ⟨"B", 0, none, none⟩]) : List Event))).state ["A", "B"] 0).1 0 (.eventSenderTagsResponse [("A", .flat [])])).state
      (([⟨"A", 0, none, none⟩, ⟨"A", 0, none, none⟩, ⟨"B", 0, none, none⟩, ⟨"B", 0, none, none⟩]) : List Event) ["A", "B"] = none ∧
    (eventsContinuation
      (parseMessage (getSenderTagsAll (parseMessage { initialState true 0 with isOpen := true, storedPromises := [7], reqId := 7 } 0 (.eventsResponse 7 (([⟨"A", 0, none, none⟩, ⟨"A", 0, none, none⟩, ⟨"B", 0, none, none⟩, ⟨"B", 0, none, none⟩]) : List Event))).state ["A", "B"] 0).1 0 (.eventSenderTagsResponse [("A", .flat []), ("B", .flat [])])).state
      (([⟨"A", 0, none, none⟩, ⟨"A", 0, none, none⟩, ⟨"B", 0, none, none⟩, ⟨"B", 0, none, none⟩]) : List Event) ["A", "B"]).isSome = true := by
  exact sender_tag_lookup_flow "A" "B" (by decide)
    { initialState true 0 with isOpen := true, storedPromises := [7], reqId := 7 }
    rfl rfl 0 7 0 9 (.flat []) (.flat [])

end CdpLogger
